import Mathlib

/-!
# nv_helpers_gl::WindowProfiler — input-state handlers and run loop

A shallow embedding of `src/nv_helpers_gl/WindowProfiler.cpp`: the event entry
points (`motion`, `mouse`, `mousewheel`, `keyboard`, `keyboardchar`, `reshape`),
`vsync` and the driver `run`, as state transformers on the `WindowProfiler`
object, followed by the properties proved about them.

Conventions of the embedding

* The object state is passed explicitly; every handler maps the state before the
  call to the state after it.
* The hosted application's virtual methods (`mouse_pos`, `mouse_button`,
  `mouse_wheel`, `key_button`, `key_char`, `resize`) and the profiler
  (`m_profiler.reset()`) are collaborators that are not part of the file.  Each
  call to one of them is appended, in program order, to the field `calls` of the
  state, together with the value of `m_window` at the time of the call, and the
  boolean answer of a consume hook is read from a `Hooks` record that is an
  argument of the handler.  A run over several events may use a
  different `Hooks` record for each event, so a hook may answer the same event
  differently at different times.  A hook is taken to answer only: it reads but
  does not write `m_window`.
* `int` values that are only stored (coordinates, sizes) are `Int`; the wheel
  accumulator, the one place where `int` arithmetic happens, wraps to 32 bits
  (`wrapInt32`); the button mask is the 32-bit pattern of the `int`, a `Nat`.
* The driver `run` talks to the window system, the clock and the hosted
  application.  What they answer during one execution is an `Env` record: the
  results of `activate` and `begin`, the clock readings, and for every pass of
  the loop an `Iteration` record with the events delivered while polling and
  waiting.  `run` returns `none` when the loop is still running after the last
  `Iteration` record, that is, when the recorded execution has not terminated.
* Clock readings are `double` in the source.  A finite `double` is a rational
  number, so a reading is a `ℚ`; every arithmetic operation the source performs
  on readings (`-`, `*`, `/`) is the exact operation followed by rounding to the
  nearest binary64 value, ties to even (`roundDouble`, with gradual underflow;
  infinities and NaN are not modelled), and comparisons are exact.  The frame
  counter (a `double` that only counts) is a `Nat`.
-/

namespace nv_helpers_gl

/-! ## Data model -/

/-- The three mouse buttons the `switch(Button)` of `mouse` distinguishes. -/
inductive MouseButton where
  | MOUSE_BUTTON_LEFT
  | MOUSE_BUTTON_MIDDLE
  | MOUSE_BUTTON_RIGHT
  deriving DecidableEq, Repr

/-- The actions of a button or key event. -/
inductive ButtonAction where
  | BUTTON_RELEASE
  | BUTTON_PRESS
  | BUTTON_REPEAT
  deriving DecidableEq, Repr

/-- Modelled from the spec: the enum `KeyCode` is declared in the header
`WindowProfiler.hpp`, which is not among the sources.  The spec gives the key
arrays as maps `Key → bool`; a key is the index into `m_keyPressed` and
`m_keyToggled`. -/
abbrev KeyCode := Nat

/-- The constants `MOUSE_BUTTONFLAG_LEFT`, `MOUSE_BUTTONFLAG_MIDDLE` and
`MOUSE_BUTTONFLAG_RIGHT`.  Their values are declared in the header, which is not
among the sources, so they are a parameter of `mouse`. -/
structure MouseButtonFlag where
  MOUSE_BUTTONFLAG_LEFT : Nat
  MOUSE_BUTTONFLAG_MIDDLE : Nat
  MOUSE_BUTTONFLAG_RIGHT : Nat

/-- The flag constant that the `switch(Button)` of `mouse` pairs with a button. -/
def MouseButtonFlag.ofButton (F : MouseButtonFlag) : MouseButton → Nat
  | .MOUSE_BUTTON_LEFT => F.MOUSE_BUTTONFLAG_LEFT
  | .MOUSE_BUTTON_MIDDLE => F.MOUSE_BUTTONFLAG_MIDDLE
  | .MOUSE_BUTTON_RIGHT => F.MOUSE_BUTTONFLAG_RIGHT

/-- The three flags are bit sets of a 32-bit `int` and no two of them share a
bit. -/
def MouseButtonFlag.Disjoint (F : MouseButtonFlag) : Prop :=
  (∀ b, F.ofButton b < 2 ^ 32) ∧
    ∀ b c, b ≠ c → F.ofButton b &&& F.ofButton c = 0

/-- The member `m_window` (`WindowProfiler::Window`). -/
structure Window where
  m_mouseButtonFlags : Nat
  m_mouseCurrent : Int × Int
  m_wheel : Int
  m_keyPressed : KeyCode → Bool
  m_keyToggled : KeyCode → Bool
  m_viewsize : Int × Int

/-- A call the handlers make to a collaborator: the profiler or a virtual method
of the hosted application. -/
inductive Call where
  | profiler_reset
  | mouse_pos (x y : Int)
  | mouse_button (button : MouseButton) (action : ButtonAction)
  | mouse_wheel (y : Int)
  | key_button (key : KeyCode) (action : ButtonAction) (mods : Int)
  | key_char (key : Nat)
  | resize (width height : Int)
  | sysVisibleConsole
  | activate (width height major minor : Int)
  | printf_no_context (major minor : Int)
  | begin
  | swapInterval (interval : Nat)
  | printf_vsync (state : Bool)
  | profiler_init
  | sysGetTime
  | sysPollEvents
  | isOpen
  | sysWaitEvents
  | frame_begin (time : ℚ)
  | section_begin
  | think (time : ℚ)
  | section_end
  | swapBuffers
  | frame_end
  | print_stats
  | setTitle (average_ms : ℚ) (vsync : Bool)
  | end_
  deriving DecidableEq, Repr

/-- An entry of the call log: the call, and the value `m_window` had when the
call was made (the hosted application's methods can read `m_window`). -/
structure CallRecord where
  call : Call
  window : Window

/-- The answers of the hosted application's consume hooks (`true`: the event
was handled by the application). -/
structure Hooks where
  mouse_pos : Int → Int → Bool
  mouse_button : MouseButton → ButtonAction → Bool
  mouse_wheel : Int → Bool
  key_button : KeyCode → ButtonAction → Int → Bool
  key_char : Nat → Bool

/-- The `WindowProfiler` object: the window state, the vsync, swap and print
flags, and the log of collaborator calls made so far (oldest first). -/
structure WindowProfiler where
  m_window : Window
  m_vsync : Bool
  m_doSwap : Bool
  m_profilerPrint : Bool
  calls : List CallRecord

/-! ## Primitive steps -/

/-- Record one collaborator call, made in the current window state. -/
def WindowProfiler.call (s : WindowProfiler) (c : Call) : WindowProfiler :=
  { s with calls := s.calls ++ [⟨c, s.m_window⟩] }

/-- The statement `m_profiler.reset();`. -/
def WindowProfiler.m_profiler_reset (s : WindowProfiler) : WindowProfiler :=
  s.call Call.profiler_reset

/-- The condition `!window.m_mouseButtonFlags && hook(...)`: C++ `&&` evaluates
the hook only when the mask is zero.  Returns the value of the condition and the
state after evaluating it. -/
def WindowProfiler.noButtonAnd (s : WindowProfiler) (c : Call) (answer : Bool) :
    Bool × WindowProfiler :=
  if s.m_window.m_mouseButtonFlags = 0 then (answer, s.call c) else (false, s)

/-- Two's-complement wrap of an integer to the range of a 32-bit `int`. -/
def wrapInt32 (v : Int) : Int := (v + 2 ^ 31) % 2 ^ 32 - 2 ^ 31

/-- The 32-bit pattern of `~f`. -/
def bitNot32 (f : Nat) : Nat := f ^^^ (2 ^ 32 - 1)

/-! ## Arithmetic on `double` -/

/-- The fraction `n / d` (with `d > 0`) rounded to the nearest natural number,
ties to the even one. -/
def roundHalfEven (n d : Nat) : Nat :=
  if 2 * (n % d) < d then n / d
  else if d < 2 * (n % d) then n / d + 1
  else if (n / d) % 2 = 0 then n / d else n / d + 1

/-- The rational `m * 2 ^ e`. -/
def scale2 (m : Nat) (e : Int) : ℚ :=
  if 0 ≤ e then ((m * 2 ^ e.toNat : Nat) : ℚ) else mkRat m (2 ^ (-e).toNat)

/-- The number `⌊log2 n⌋` for `1 ≤ n < 2 ^ fuel`, by repeated halving. -/
def log2Fuel : Nat → Nat → Nat
  | 0, _ => 0
  | fuel + 1, n => if n < 2 then 0 else log2Fuel fuel (n / 2) + 1

/-- The number `⌊log2 (n / d)⌋` for positive `n` and `d`: the difference of the
two bit lengths, less one when `n / d` is below that power of two. -/
def floorLog2 (n d : Nat) : Int :=
  let k : Int := (log2Fuel n n : Int) - (log2Fuel d d : Int)
  if (if 0 ≤ k then decide (n < d * 2 ^ k.toNat) else decide (n * 2 ^ (-k).toNat < d)) then k - 1
  else k

/-- The binary64 value nearest to the positive fraction `n / d`: a 53-bit
significand times a power of two, the exponent of the last place being at least
`-1074` (subnormal numbers), ties to the even significand. -/
def roundPos (n d : Nat) : ℚ :=
  let e : Int := max (floorLog2 n d - 52) (-1074)
  let m : Nat :=
    if 0 ≤ e then roundHalfEven n (d * 2 ^ e.toNat) else roundHalfEven (n * 2 ^ (-e).toNat) d
  scale2 m e

/-- The binary64 value nearest to `q`, ties to even (IEEE 754 round-to-nearest;
overflow to infinity is not modelled). -/
def roundDouble (q : ℚ) : ℚ :=
  if q = 0 then 0
  else if 0 < q then roundPos q.num.natAbs q.den
  else -roundPos q.num.natAbs q.den

/-- The C++ expression `a - b` on `double`. -/
def doubleSub (a b : ℚ) : ℚ := roundDouble (a - b)

/-- The C++ expression `a * b` on `double`. -/
def doubleMul (a b : ℚ) : ℚ := roundDouble (a * b)

/-- The C++ expression `a / b` on `double`, for `b` other than 0. -/
def doubleDiv (a b : ℚ) : ℚ := roundDouble (a / b)

/-- The `double` written `0.1`. -/
def double_0_1 : ℚ := mkRat 3602879701896397 (2 ^ 55)

/-- The `double` written `2.1`. -/
def double_2_1 : ℚ := mkRat 4728779608739021 (2 ^ 51)

/-! ## The handlers -/

/-- `WindowProfiler::motion(int x, int y)`. -/
def motion (app : Hooks) (x y : Int) (s : WindowProfiler) : WindowProfiler :=
  let r := s.noButtonAnd (Call.mouse_pos x y) (app.mouse_pos x y)
  if r.1 then r.2
  else { r.2 with m_window := { r.2.m_window with m_mouseCurrent := (x, y) } }

/-- `WindowProfiler::mouse(MouseButton Button, ButtonAction Action, int mods,
int x, int y)`. -/
def mouse (F : MouseButtonFlag) (app : Hooks) (Button : MouseButton)
    (Action : ButtonAction) (_mods _x _y : Int) (s : WindowProfiler) : WindowProfiler :=
  let s := s.m_profiler_reset
  let r := s.noButtonAnd (Call.mouse_button Button Action) (app.mouse_button Button Action)
  if r.1 then r.2
  else
    let s := r.2
    match Action with
    | .BUTTON_PRESS =>
      { s with m_window := { s.m_window with
          m_mouseButtonFlags := s.m_window.m_mouseButtonFlags ||| F.ofButton Button } }
    | .BUTTON_RELEASE =>
      if s.m_window.m_mouseButtonFlags = 0 then s
      else
        { s with m_window := { s.m_window with
            m_mouseButtonFlags :=
              s.m_window.m_mouseButtonFlags &&& bitNot32 (F.ofButton Button) } }
    | .BUTTON_REPEAT => s

/-- `WindowProfiler::mousewheel(int y)`. -/
def mousewheel (app : Hooks) (y : Int) (s : WindowProfiler) : WindowProfiler :=
  let s := s.m_profiler_reset
  let s := s.call (Call.mouse_wheel y)
  if app.mouse_wheel y then s
  else { s with m_window := { s.m_window with m_wheel := wrapInt32 (s.m_window.m_wheel + y) } }

/-- The `switch(action)` of `keyboard` that computes `newState`. -/
def newState : ButtonAction → Bool
  | .BUTTON_PRESS => true
  | .BUTTON_REPEAT => true
  | .BUTTON_RELEASE => false

/-- `WindowProfiler::keyboard(KeyCode key, ButtonAction action, int mods, int x,
int y)`. -/
def keyboard (app : Hooks) (key : KeyCode) (action : ButtonAction) (mods _x _y : Int)
    (s : WindowProfiler) : WindowProfiler :=
  let s := s.m_profiler_reset
  let s := s.call (Call.key_button key action mods)
  if app.key_button key action mods then s
  else
    let toggled := Function.update s.m_window.m_keyToggled key
      (s.m_window.m_keyPressed key != newState action)
    let pressed := Function.update s.m_window.m_keyPressed key (newState action)
    { s with m_window := { s.m_window with m_keyToggled := toggled, m_keyPressed := pressed } }

/-- `WindowProfiler::keyboardchar(unsigned char key, int mods, int x, int y)`. -/
def keyboardchar (_app : Hooks) (key : Nat) (_mods _x _y : Int) (s : WindowProfiler) :
    WindowProfiler :=
  let s := s.m_profiler_reset
  s.call (Call.key_char key)

/-- `WindowProfiler::reshape(int width, int height)`. -/
def reshape (width height : Int) (s : WindowProfiler) : WindowProfiler :=
  let s := s.m_profiler_reset
  if width = 0 ∧ height = 0 then s
  else
    let s := { s with m_window := { s.m_window with m_viewsize := (width, height) } }
    s.call (Call.resize width height)

/-! ## Event sequences -/

/-- One keyboard event as delivered to `keyboard`, together with the answers the
hosted hooks give while it is handled. -/
structure KeyEvent where
  app : Hooks
  key : KeyCode
  action : ButtonAction
  mods : Int
  x : Int
  y : Int

/-- Deliver keyboard events one after another; nothing else touches the state in
between (in particular the toggle flags are not cleared). -/
def keyboardEvents (evs : List KeyEvent) (s : WindowProfiler) : WindowProfiler :=
  evs.foldl (fun st e => keyboard e.app e.key e.action e.mods e.x e.y st) s

/-- The hook does not consume the key event. -/
def KeyEvent.unconsumed (e : KeyEvent) : Prop :=
  e.app.key_button e.key e.action e.mods = false

/-- The hook consumes the key event. -/
def KeyEvent.consumed (e : KeyEvent) : Prop :=
  e.app.key_button e.key e.action e.mods = true

/-- Hooks that consume nothing. -/
def Hooks.passive : Hooks :=
  { mouse_pos := fun _ _ => false
    mouse_button := fun _ _ => false
    mouse_wheel := fun _ => false
    key_button := fun _ _ _ => false
    key_char := fun _ => false }

/-- Hooks that consume every event. -/
def Hooks.greedy : Hooks :=
  { mouse_pos := fun _ _ => true
    mouse_button := fun _ _ => true
    mouse_wheel := fun _ => true
    key_button := fun _ _ _ => true
    key_char := fun _ => true }

/-- A freshly constructed object: no button or key held, nothing logged. -/
def WindowProfiler.fresh : WindowProfiler :=
  { m_window :=
      { m_mouseButtonFlags := 0
        m_mouseCurrent := (0, 0)
        m_wheel := 0
        m_keyPressed := fun _ => false
        m_keyToggled := fun _ => false
        m_viewsize := (0, 0) }
    m_vsync := false
    m_doSwap := true
    m_profilerPrint := false
    calls := [] }

/-- The flag values `1`, `2`, `4` for left, right, middle. -/
def MouseButtonFlag.sample : MouseButtonFlag :=
  { MOUSE_BUTTONFLAG_LEFT := 1, MOUSE_BUTTONFLAG_MIDDLE := 4, MOUSE_BUTTONFLAG_RIGHT := 2 }

/-- PRESS then RELEASE of key 65, neither consumed by the hook. -/
def pressThenRelease : List KeyEvent :=
  [⟨Hooks.passive, 65, ButtonAction.BUTTON_PRESS, 0, 0, 0⟩,
   ⟨Hooks.passive, 65, ButtonAction.BUTTON_RELEASE, 0, 0, 0⟩]

/-- One wheel event as delivered to `mousewheel`, together with the answers the
hosted hooks give while it is handled. -/
structure WheelEvent where
  app : Hooks
  y : Int

/-- Deliver wheel events one after another. -/
def mousewheelEvents (evs : List WheelEvent) (s : WindowProfiler) : WindowProfiler :=
  evs.foldl (fun st e => mousewheel e.app e.y st) s

/-- The sum of the deltas of exactly those wheel events that the hook does not
consume. -/
def unconsumedDelta (evs : List WheelEvent) : Int :=
  ((evs.filter (fun e => !e.app.mouse_wheel e.y)).map (fun e => e.y)).sum

/-- The value is representable in a 32-bit `int`. -/
def inInt32 (v : Int) : Bool := decide (-(2 ^ 31) ≤ v) && decide (v < 2 ^ 31)

/-- No addition `m_wheel += y` performed while the events are delivered, starting
from the accumulator value `w`, leaves the range of `int`. -/
def wheelNoOverflow : List WheelEvent → Int → Bool
  | [], _ => true
  | e :: evs, w =>
    if e.app.mouse_wheel e.y then wheelNoOverflow evs w
    else inInt32 (w + e.y) && wheelNoOverflow evs (w + e.y)

/-- The calls made between state `s` and the later state `t`. -/
def callsDuring (s t : WindowProfiler) : List CallRecord :=
  t.calls.drop s.calls.length

/-- A fresh object in which the button with mask `flags` is held and the cursor
is at `(5, 5)`. -/
def WindowProfiler.dragging (flags : Nat) : WindowProfiler :=
  { WindowProfiler.fresh with
    m_window := { WindowProfiler.fresh.m_window with
      m_mouseButtonFlags := flags, m_mouseCurrent := (5, 5) } }

/-! ## The driver -/

/-- `WindowProfiler::vsync(bool state)`. -/
def vsync (state : Bool) (s : WindowProfiler) : WindowProfiler :=
  let s := s.call (Call.swapInterval (if state then 1 else 0))
  let s := { s with m_vsync := state }
  s.call (Call.printf_vsync state)

/-- The key constants `KEY_ESCAPE` and `KEY_V` that `run` uses.  Their values are
declared in the header, which is not among the sources, so they are a parameter
of `run`. -/
structure KeyCodes where
  KEY_ESCAPE : KeyCode
  KEY_V : KeyCode

/-- Modelled from the spec: `Window::onPress` is defined in the header, which is
not among the sources.  The spec reads `onPress(KEY_V)` as "the key has a fresh
press-edge this cycle": the key is pressed and its state changed. -/
def Window.onPress (w : Window) (key : KeyCode) : Bool :=
  w.m_keyPressed key && w.m_keyToggled key

/-- An input event as the window system delivers it to one of the entry points,
together with the answers the hosted hooks give while it is handled. -/
inductive InputEvent where
  | motion (app : Hooks) (x y : Int)
  | mouse (app : Hooks) (Button : MouseButton) (Action : ButtonAction) (mods x y : Int)
  | mousewheel (app : Hooks) (y : Int)
  | keyboard (app : Hooks) (key : KeyCode) (action : ButtonAction) (mods x y : Int)
  | keyboardchar (app : Hooks) (key : Nat) (mods x y : Int)
  | reshape (width height : Int)

/-- Modelled from the spec: the callback layer that forwards window-system events
to the entry points is not among the sources.  Per the spec the driver "polls and
dispatches events" and each event updates the input state through its entry
point. -/
def dispatch (F : MouseButtonFlag) : InputEvent → WindowProfiler → WindowProfiler
  | .motion app x y, s => motion app x y s
  | .mouse app Button Action mods x y, s => mouse F app Button Action mods x y s
  | .mousewheel app y, s => mousewheel app y s
  | .keyboard app key action mods x y, s => keyboard app key action mods x y s
  | .keyboardchar app key mods x y, s => keyboardchar app key mods x y s
  | .reshape width height, s => reshape width height s

/-- Deliver a batch of events in order. -/
def dispatchAll (F : MouseButtonFlag) (evs : List InputEvent) (s : WindowProfiler) :
    WindowProfiler :=
  evs.foldl (fun st e => dispatch F e st) s

/-- What the environment does during one pass of the `while(true)` loop of `run`:
the events delivered by `sysPollEvents(false)` and its result, one batch of
events for every round of `while ( !isOpen() ){ sysWaitEvents(); }`, the three
clock readings, and whether the profiler left `stats` empty. -/
structure Iteration where
  pollEvents : List InputEvent
  pollResult : Bool
  waits : List (List InputEvent)
  timeFrame : ℚ
  timeThink : ℚ
  statsEmpty : Bool
  timeCurrent : ℚ

/-- What the environment does during one execution of `run`. -/
structure Env where
  activate : Bool
  begin : Bool
  timeStart : ℚ
  timeBegin : ℚ
  iterations : List Iteration

/-- The locals of `run` that live across loop iterations. -/
structure LoopVars where
  timeStart : ℚ
  timeBegin : ℚ
  frames : Nat
  lastVsync : Bool

/-- The loop `while ( !isOpen() ){ NVPWindow::sysWaitEvents(); }`, for an
environment in which `isOpen()` is false once per batch and then true. -/
def waitOpen (F : MouseButtonFlag) : List (List InputEvent) → WindowProfiler → WindowProfiler
  | [], s => s.call Call.isOpen
  | batch :: rest, s =>
    waitOpen F rest (dispatchAll F batch ((s.call Call.isOpen).call Call.sysWaitEvents))

/-- The statement `memset(m_window.m_keyToggled, 0, sizeof(m_window.m_keyToggled));`. -/
def clearKeyToggled (s : WindowProfiler) : WindowProfiler :=
  { s with m_window := { s.m_window with m_keyToggled := fun _ => false } }

/-- Lines 273-291 of `run`: count the frame, read the clock, and refresh the
title when more than 2.0 have elapsed or the vsync flag changed.  `setTitle` is
logged with the number shown and whether the vsync suffix is shown. -/
def refreshTitle (timeCurrent : ℚ) (v : LoopVars) (s : WindowProfiler) :
    LoopVars × WindowProfiler :=
  let frames := v.frames + 1
  let s := s.call Call.sysGetTime
  let timeDelta := doubleSub timeCurrent v.timeBegin
  if timeDelta > 2 ∨ v.lastVsync ≠ s.m_vsync then
    let timeDelta := if v.lastVsync ≠ s.m_vsync then 0 else timeDelta
    let s := s.call (Call.setTitle (doubleDiv (doubleMul timeDelta 1000) (frames : ℚ)) s.m_vsync)
    ({ v with frames := 0, timeBegin := timeCurrent, lastVsync := s.m_vsync }, s)
  else ({ v with frames := frames }, s)

/-- Lines 256-271 of `run`: the frame scope with `think`, the clearing of the
toggle flags, the optional swap, and the optional print of the statistics. -/
def frame (it : Iteration) (v : LoopVars) (s : WindowProfiler) : WindowProfiler :=
  let s := s.call Call.sysGetTime
  let s := s.call (Call.frame_begin it.timeFrame)
  let s := s.call Call.section_begin
  let s := s.call Call.sysGetTime
  let s := s.call (Call.think (doubleSub it.timeThink v.timeStart))
  let s := s.call Call.section_end
  let s := clearKeyToggled s
  let s := if s.m_doSwap then s.call Call.swapBuffers else s
  let s := s.call Call.frame_end
  if s.m_profilerPrint && !it.statsEmpty then s.call Call.print_stats else s

/-- How one pass of the loop body ends: with `break`, or at the end of the body. -/
inductive LoopStep where
  | brk (s : WindowProfiler)
  | next (v : LoopVars) (s : WindowProfiler)

/-- The loop body after the escape test (lines 244-291 of `run`). -/
def iteration (F : MouseButtonFlag) (K : KeyCodes) (it : Iteration) (v : LoopVars)
    (s : WindowProfiler) : LoopStep :=
  let s := dispatchAll F it.pollEvents (s.call Call.sysPollEvents)
  if !it.pollResult then LoopStep.brk s
  else
    let s := waitOpen F it.waits s
    let s := if s.m_window.onPress K.KEY_V then vsync (!s.m_vsync) s else s
    let s := frame it v s
    let r := refreshTitle it.timeCurrent v s
    LoopStep.next r.1 r.2

/-- The loop `while(true)` of `run` (lines 239-292).  `none`: the loop has not
ended when the recorded iterations are used up. -/
def loop (F : MouseButtonFlag) (K : KeyCodes) :
    List Iteration → LoopVars → WindowProfiler → Option WindowProfiler
  | [], _, s => if s.m_window.m_keyPressed K.KEY_ESCAPE then some s else none
  | it :: its, v, s =>
    if s.m_window.m_keyPressed K.KEY_ESCAPE then some s
    else
      match iteration F K it v s with
      | LoopStep.brk t => some t
      | LoopStep.next w t => loop F K its w t

/-- The value `EXIT_SUCCESS` of `<stdlib.h>`. -/
def EXIT_SUCCESS : Int := 0

/-- The value `EXIT_FAILURE` of `<stdlib.h>`. -/
def EXIT_FAILURE : Int := 1

/-- The state of `run` when it reaches `if(Run)` (lines 222-235): view size
recorded, `begin()` called, vsync enabled, profiler initialised, clock read
twice. -/
def setup (width height : Int) (s : WindowProfiler) : WindowProfiler :=
  let s := { s with m_window := { s.m_window with m_viewsize := (width, height) } }
  let s := s.call Call.begin
  let s := vsync true s
  let s := s.call Call.profiler_init
  let s := s.call Call.sysGetTime
  s.call Call.sysGetTime

/-- `WindowProfiler::run(title, argc, argv, width, height, Major, Minor)`: the
exit code and the final state.  The `_WIN32` affinity block is left out. -/
def run (F : MouseButtonFlag) (K : KeyCodes) (env : Env) (width height Major Minor : Int)
    (s : WindowProfiler) : Option (Int × WindowProfiler) :=
  let s := s.call Call.sysVisibleConsole
  let s := s.call (Call.activate width height Major Minor)
  if !env.activate then
    some (EXIT_FAILURE, s.call (Call.printf_no_context Major Minor))
  else
    let s := setup width height s
    let Run := env.begin
    let v : LoopVars :=
      { timeStart := env.timeStart, timeBegin := env.timeBegin, frames := 0,
        lastVsync := s.m_vsync }
    let afterLoop := if Run then loop F K env.iterations v s else some s
    afterLoop.map (fun t => (if Run then EXIT_SUCCESS else EXIT_FAILURE, t.call Call.end_))

/-- The key codes 256 for escape and 86 for V. -/
def KeyCodes.sample : KeyCodes := { KEY_ESCAPE := 256, KEY_V := 86 }

/-- A pass of the loop in which polling delivers nothing and reports that the
window is to close. -/
def Iteration.closing : Iteration :=
  { pollEvents := [], pollResult := false, waits := [], timeFrame := 0, timeThink := 0,
    statsEmpty := true, timeCurrent := 0 }

/-- A pass of the loop in which polling delivers the given events, the window is
open and all clock readings are 0. -/
def Iteration.delivering (evs : List InputEvent) : Iteration :=
  { pollEvents := evs, pollResult := true, waits := [], timeFrame := 0, timeThink := 0,
    statsEmpty := true, timeCurrent := 0 }

/-- An execution with the given results of `activate` and `begin` and the given
passes of the loop; the clock reads 0 before the loop. -/
def Env.sample (activate begin : Bool) (iterations : List Iteration) : Env :=
  { activate := activate, begin := begin, timeStart := 0, timeBegin := 0,
    iterations := iterations }

/-- The state of a completed pass of the loop when its event dispatch is over:
after `sysPollEvents` and after the wait for the window to be open. -/
def dispatched (F : MouseButtonFlag) (it : Iteration) (s : WindowProfiler) : WindowProfiler :=
  waitOpen F it.waits (dispatchAll F it.pollEvents (s.call Call.sysPollEvents))

/-- The state of a completed pass of the loop when it enters the frame scope:
after the event dispatch and the vsync toggle on a fresh press of `KEY_V`. -/
def beforeFrame (F : MouseButtonFlag) (K : KeyCodes) (it : Iteration) (s : WindowProfiler) :
    WindowProfiler :=
  if (dispatched F it s).m_window.onPress K.KEY_V then
    vsync (!(dispatched F it s).m_vsync) (dispatched F it s)
  else dispatched F it s

/-- What one event does to the pressed state `b` of `key`: only a keyboard event
for `key` that the hook does not consume changes it, to `newState action`. -/
def InputEvent.keyEffect (key : KeyCode) (e : InputEvent) (b : Bool) : Bool :=
  match e with
  | .keyboard app k action mods _ _ =>
    if k = key ∧ app.key_button k action mods = false then newState action else b
  | _ => b

/-- The pressed state of `key` after a list of events, from its state `b` before:
the state set by the last unconsumed keyboard event for `key`, if there is one. -/
def keyStateAfter (key : KeyCode) (evs : List InputEvent) (b : Bool) : Bool :=
  evs.foldl (fun st e => e.keyEffect key st) b

/-- All events delivered during one pass of the loop, in order. -/
def Iteration.events (it : Iteration) : List InputEvent :=
  it.pollEvents ++ it.waits.flatten

/-- A press and a release of key 256, neither consumed, as delivered by one
poll. -/
def escapeTap : List InputEvent :=
  [InputEvent.keyboard Hooks.passive 256 ButtonAction.BUTTON_PRESS 0 0 0,
   InputEvent.keyboard Hooks.passive 256 ButtonAction.BUTTON_RELEASE 0 0 0]

/-- A PRESS of key 256 that the hook does not consume, followed by a motion. -/
def escapePress : List InputEvent :=
  [InputEvent.keyboard Hooks.passive 256 ButtonAction.BUTTON_PRESS 0 0 0,
   InputEvent.motion Hooks.passive 3 4]

/-- A PRESS of key 86 (`V`) that the hook does not consume. -/
def pressV : List InputEvent :=
  [InputEvent.keyboard Hooks.passive 86 ButtonAction.BUTTON_PRESS 0 0 0]

/-- The calls of a log, without the window snapshots. -/
def callNames (l : List CallRecord) : List Call := l.map (fun r => r.call)

/-! ## Basic facts about the handlers -/

theorem keyboard_of_consumed (app : Hooks) (key : KeyCode) (action : ButtonAction)
    (mods x y : Int) (s : WindowProfiler) (h : app.key_button key action mods = true) :
    keyboard app key action mods x y s
      = (s.m_profiler_reset).call (Call.key_button key action mods) := by
  simp [keyboard, h]

theorem keyboard_pressed_of_unconsumed (app : Hooks) (key : KeyCode) (action : ButtonAction)
    (mods x y : Int) (s : WindowProfiler) (h : app.key_button key action mods = false) :
    (keyboard app key action mods x y s).m_window.m_keyPressed
      = Function.update s.m_window.m_keyPressed key (newState action) := by
  simp [keyboard, h, WindowProfiler.call, WindowProfiler.m_profiler_reset]

theorem keyboard_toggled_of_unconsumed (app : Hooks) (key : KeyCode) (action : ButtonAction)
    (mods x y : Int) (s : WindowProfiler) (h : app.key_button key action mods = false) :
    (keyboard app key action mods x y s).m_window.m_keyToggled
      = Function.update s.m_window.m_keyToggled key
          (s.m_window.m_keyPressed key != newState action) := by
  simp [keyboard, h, WindowProfiler.call, WindowProfiler.m_profiler_reset]

theorem keyboard_window_of_consumed (app : Hooks) (key : KeyCode) (action : ButtonAction)
    (mods x y : Int) (s : WindowProfiler) (h : app.key_button key action mods = true) :
    (keyboard app key action mods x y s).m_window = s.m_window := by
  simp [keyboard, h, WindowProfiler.call, WindowProfiler.m_profiler_reset]

theorem keyboardEvents_nil (s : WindowProfiler) : keyboardEvents [] s = s := rfl

theorem keyboardEvents_cons (e : KeyEvent) (evs : List KeyEvent) (s : WindowProfiler) :
    keyboardEvents (e :: evs) s
      = keyboardEvents evs (keyboard e.app e.key e.action e.mods e.x e.y s) := rfl

theorem keyboardEvents_append (evs evs2 : List KeyEvent) (s : WindowProfiler) :
    keyboardEvents (evs ++ evs2) s = keyboardEvents evs2 (keyboardEvents evs s) := by
  simp [keyboardEvents, List.foldl_append]

theorem testBit_bitNot32 (f i : Nat) :
    (bitNot32 f).testBit i = (f.testBit i != decide (i < 32)) := by
  unfold bitNot32
  rw [Nat.testBit_xor, Nat.testBit_two_pow_sub_one]

theorem lt_32_of_testBit (f i : Nat) (hf : f < 2 ^ 32) (h : f.testBit i = true) : i < 32 := by
  by_contra hi
  have hlt : f < 2 ^ i := lt_of_lt_of_le hf (Nat.pow_le_pow_right (by norm_num) (by omega))
  rw [Nat.testBit_lt_two_pow hlt] at h
  exact absurd h (by simp)

theorem land_bitNot32_land (m f g : Nat) (hg : g < 2 ^ 32) (hfg : f &&& g = 0) :
    (m &&& bitNot32 f) &&& g = m &&& g := by
  apply Nat.eq_of_testBit_eq
  intro i
  have hd : (f &&& g).testBit i = false := by rw [hfg]; simp
  rw [Nat.testBit_land] at hd
  simp only [Nat.testBit_land, testBit_bitNot32]
  cases hgi : g.testBit i
  · simp
  · have hi := lt_32_of_testBit g i hg hgi
    rw [hgi] at hd
    simp at hd
    simp [hd, hi]

theorem lor_land_of_disjoint (m f g : Nat) (hfg : f &&& g = 0) :
    (m ||| f) &&& g = m &&& g := by
  apply Nat.eq_of_testBit_eq
  intro i
  have hd : (f &&& g).testBit i = false := by rw [hfg]; simp
  rw [Nat.testBit_land] at hd
  simp only [Nat.testBit_land, Nat.testBit_lor]
  cases hgi : g.testBit i
  · simp
  · rw [hgi] at hd
    simp at hd
    simp [hd]

theorem testBit_land_bitNot32 (m f i : Nat) (hm : m < 2 ^ 32) :
    (m &&& bitNot32 f).testBit i = (m.testBit i && !f.testBit i) := by
  simp only [Nat.testBit_land, testBit_bitNot32]
  cases hmi : m.testBit i
  · simp
  · have hi := lt_32_of_testBit m i hm hmi
    simp [hi]

theorem sample_disjoint : MouseButtonFlag.sample.Disjoint := by
  constructor
  · intro b; cases b <;> decide
  · intro b c hbc
    cases b <;> cases c <;> first | exact absurd rfl hbc | decide

/-- The mask after `mouse`, case by case. -/
theorem mouse_flags (F : MouseButtonFlag) (app : Hooks) (Button : MouseButton)
    (Action : ButtonAction) (mods x y : Int) (s : WindowProfiler) :
    (mouse F app Button Action mods x y s).m_window.m_mouseButtonFlags
      = if s.m_window.m_mouseButtonFlags = 0 ∧ app.mouse_button Button Action = true then
          s.m_window.m_mouseButtonFlags
        else
          match Action with
          | .BUTTON_PRESS => s.m_window.m_mouseButtonFlags ||| F.ofButton Button
          | .BUTTON_RELEASE =>
            if s.m_window.m_mouseButtonFlags = 0 then s.m_window.m_mouseButtonFlags
            else s.m_window.m_mouseButtonFlags &&& bitNot32 (F.ofButton Button)
          | .BUTTON_REPEAT => s.m_window.m_mouseButtonFlags := by
  by_cases h0 : s.m_window.m_mouseButtonFlags = 0 <;>
    cases hc : app.mouse_button Button Action <;>
    cases Action <;>
    simp [mouse, WindowProfiler.noButtonAnd, WindowProfiler.call,
      WindowProfiler.m_profiler_reset, h0, hc]

/-- Everything in `m_window` other than the mask is left alone by `mouse`. -/
theorem mouse_other_fields (F : MouseButtonFlag) (app : Hooks) (Button : MouseButton)
    (Action : ButtonAction) (mods x y : Int) (s : WindowProfiler) :
    (mouse F app Button Action mods x y s).m_window.m_mouseCurrent = s.m_window.m_mouseCurrent ∧
    (mouse F app Button Action mods x y s).m_window.m_wheel = s.m_window.m_wheel ∧
    (mouse F app Button Action mods x y s).m_window.m_keyPressed = s.m_window.m_keyPressed ∧
    (mouse F app Button Action mods x y s).m_window.m_keyToggled = s.m_window.m_keyToggled ∧
    (mouse F app Button Action mods x y s).m_window.m_viewsize = s.m_window.m_viewsize := by
  by_cases h0 : s.m_window.m_mouseButtonFlags = 0 <;>
    cases hc : app.mouse_button Button Action <;>
    cases Action <;>
    simp [mouse, WindowProfiler.noButtonAnd, WindowProfiler.call,
      WindowProfiler.m_profiler_reset, h0, hc]

theorem wrapInt32_modEq (v : Int) : wrapInt32 v ≡ v [ZMOD 2 ^ 32] := by
  unfold wrapInt32 Int.ModEq
  norm_num
  omega

theorem wrapInt32_of_inInt32 (v : Int) (h : inInt32 v = true) : wrapInt32 v = v := by
  unfold inInt32 at h
  unfold wrapInt32
  simp only [Bool.and_eq_true, decide_eq_true_eq] at h
  norm_num at h ⊢
  omega

theorem mousewheel_wheel (app : Hooks) (y : Int) (s : WindowProfiler) :
    (mousewheel app y s).m_window.m_wheel
      = if app.mouse_wheel y = true then s.m_window.m_wheel
        else wrapInt32 (s.m_window.m_wheel + y) := by
  cases hc : app.mouse_wheel y <;>
    simp [mousewheel, WindowProfiler.call, WindowProfiler.m_profiler_reset, hc]

theorem mousewheelEvents_cons (e : WheelEvent) (evs : List WheelEvent) (s : WindowProfiler) :
    mousewheelEvents (e :: evs) s = mousewheelEvents evs (mousewheel e.app e.y s) := rfl

theorem unconsumedDelta_cons (e : WheelEvent) (evs : List WheelEvent) :
    unconsumedDelta (e :: evs)
      = if e.app.mouse_wheel e.y = true then unconsumedDelta evs
        else e.y + unconsumedDelta evs := by
  cases hc : e.app.mouse_wheel e.y <;> simp [unconsumedDelta, List.filter_cons, hc]

theorem mousewheelEvents_modEq (evs : List WheelEvent) (s : WindowProfiler) :
    (mousewheelEvents evs s).m_window.m_wheel
      ≡ s.m_window.m_wheel + unconsumedDelta evs [ZMOD 2 ^ 32] := by
  induction evs generalizing s with
  | nil => simp [mousewheelEvents, unconsumedDelta]
  | cons e evs ih =>
    rw [mousewheelEvents_cons, unconsumedDelta_cons]
    refine (ih _).trans ?_
    rw [mousewheel_wheel]
    by_cases hc : e.app.mouse_wheel e.y = true
    · rw [if_pos hc, if_pos hc]
    · rw [if_neg hc, if_neg hc, ← add_assoc]
      exact (wrapInt32_modEq _).add_right _

theorem mousewheelEvents_exact (evs : List WheelEvent) (s : WindowProfiler)
    (h : wheelNoOverflow evs s.m_window.m_wheel = true) :
    (mousewheelEvents evs s).m_window.m_wheel = s.m_window.m_wheel + unconsumedDelta evs := by
  induction evs generalizing s with
  | nil => simp [mousewheelEvents, unconsumedDelta]
  | cons e evs ih =>
    rw [mousewheelEvents_cons, unconsumedDelta_cons]
    by_cases hc : e.app.mouse_wheel e.y = true
    · simp only [wheelNoOverflow] at h
      rw [if_pos hc] at h
      have hw : (mousewheel e.app e.y s).m_window.m_wheel = s.m_window.m_wheel := by
        rw [mousewheel_wheel, if_pos hc]
      rw [ih _ (by rw [hw]; exact h), hw, if_pos hc]
    · simp only [wheelNoOverflow] at h
      rw [if_neg hc, Bool.and_eq_true] at h
      have hw : (mousewheel e.app e.y s).m_window.m_wheel = s.m_window.m_wheel + e.y := by
        rw [mousewheel_wheel, if_neg hc, wrapInt32_of_inInt32 _ h.1]
      rw [ih _ (by rw [hw]; exact h.2), hw, if_neg hc, add_assoc]

theorem callsDuring_append (s t : WindowProfiler) (l : List CallRecord)
    (h : t.calls = s.calls ++ l) : callsDuring s t = l := by
  simp [callsDuring, h]

/-! ## Keyboard: press state and toggle edge -/

/-- C1: when the `key_button` hook does not consume the event, `keyboard` sets
`m_keyToggled[key]` to `old m_keyPressed[key] != newState` and `m_keyPressed[key]`
to `newState`, where `newState` is true for PRESS and REPEAT and false for
RELEASE; the entries of every other key keep their values. -/
theorem keyboard_unconsumed_sets_key (app : Hooks) (key : KeyCode) (action : ButtonAction)
    (mods x y : Int) (s : WindowProfiler)
    (h : app.key_button key action mods = false) :
    (keyboard app key action mods x y s).m_window.m_keyToggled key
        = (s.m_window.m_keyPressed key
            != (action == ButtonAction.BUTTON_PRESS || action == ButtonAction.BUTTON_REPEAT)) ∧
      (keyboard app key action mods x y s).m_window.m_keyPressed key
        = (action == ButtonAction.BUTTON_PRESS || action == ButtonAction.BUTTON_REPEAT) ∧
      ∀ k, k ≠ key →
        (keyboard app key action mods x y s).m_window.m_keyPressed k = s.m_window.m_keyPressed k ∧
        (keyboard app key action mods x y s).m_window.m_keyToggled k
          = s.m_window.m_keyToggled k := by
  have hn : newState action
      = (action == ButtonAction.BUTTON_PRESS || action == ButtonAction.BUTTON_REPEAT) := by
    cases action <;> rfl
  rw [keyboard_pressed_of_unconsumed app key action mods x y s h,
    keyboard_toggled_of_unconsumed app key action mods x y s h, hn]
  refine ⟨by simp, by simp, fun k hk => ?_⟩
  simp [Function.update_noteq hk]

/-- Witness for C1: a PRESS of key 65 on a fresh object with passive hooks. -/
theorem keyboard_unconsumed_sets_key_witness :
    Hooks.passive.key_button 65 ButtonAction.BUTTON_PRESS 0 = false ∧
      (keyboard Hooks.passive 65 ButtonAction.BUTTON_PRESS 0 0 0
          WindowProfiler.fresh).m_window.m_keyToggled 65 = true ∧
      (keyboard Hooks.passive 65 ButtonAction.BUTTON_PRESS 0 0 0
          WindowProfiler.fresh).m_window.m_keyPressed 65 = true := by
  have h := keyboard_unconsumed_sets_key Hooks.passive 65 ButtonAction.BUTTON_PRESS 0 0 0
    WindowProfiler.fresh rfl
  exact ⟨rfl, by rw [h.1]; rfl, by rw [h.2.1]; rfl⟩

/-- Counterexample to C2 as stated: from a fresh object, PRESS then RELEASE of
key 65 is a non-empty sequence of unconsumed PRESS/RELEASE events on one key;
after it `m_keyToggled[65]` is true although `m_keyPressed[65]` is false, as it
was before the sequence, so the stated equivalence fails. -/
theorem keyboard_toggle_net_change_fails :
    (∀ e ∈ pressThenRelease, e.key = 65 ∧ e.unconsumed ∧
      (e.action = ButtonAction.BUTTON_PRESS ∨ e.action = ButtonAction.BUTTON_RELEASE)) ∧
    (keyboardEvents pressThenRelease WindowProfiler.fresh).m_window.m_keyToggled 65 = true ∧
    (keyboardEvents pressThenRelease WindowProfiler.fresh).m_window.m_keyPressed 65 = false ∧
    WindowProfiler.fresh.m_window.m_keyPressed 65 = false ∧
    ¬ ((keyboardEvents pressThenRelease WindowProfiler.fresh).m_window.m_keyToggled 65 = true ↔
        (keyboardEvents pressThenRelease WindowProfiler.fresh).m_window.m_keyPressed 65
          ≠ WindowProfiler.fresh.m_window.m_keyPressed 65) := by
  have ht : (keyboardEvents pressThenRelease
      WindowProfiler.fresh).m_window.m_keyToggled 65 = true := by
    simp [pressThenRelease, keyboardEvents, keyboard, Hooks.passive, WindowProfiler.fresh,
      newState, WindowProfiler.call, WindowProfiler.m_profiler_reset]
  have hp : (keyboardEvents pressThenRelease
      WindowProfiler.fresh).m_window.m_keyPressed 65 = false := by
    simp [pressThenRelease, keyboardEvents, keyboard, Hooks.passive, WindowProfiler.fresh,
      newState, WindowProfiler.call, WindowProfiler.m_profiler_reset]
  refine ⟨by simp [pressThenRelease, KeyEvent.unconsumed, Hooks.passive], ht, hp, rfl, ?_⟩
  intro h
  have hne := h.mp ht
  rw [hp] at hne
  exact hne rfl

/-- C2 (amended): after a non-empty sequence of unconsumed PRESS/RELEASE events
on one key, with no clearing in between, `m_keyToggled[key]` is true if and only
if `m_keyPressed[key]` after the sequence differs from `m_keyPressed[key]`
immediately before the last event of the sequence. -/
theorem keyboard_toggle_last_event_change (s : WindowProfiler) (key : KeyCode)
    (evs : List KeyEvent) (hne : evs ≠ [])
    (hev : ∀ e ∈ evs, e.key = key ∧ e.unconsumed ∧
      (e.action = ButtonAction.BUTTON_PRESS ∨ e.action = ButtonAction.BUTTON_RELEASE)) :
    ((keyboardEvents evs s).m_window.m_keyToggled key = true ↔
      (keyboardEvents evs s).m_window.m_keyPressed key
        ≠ (keyboardEvents evs.dropLast s).m_window.m_keyPressed key) := by
  obtain ⟨e, he⟩ : ∃ e, evs = evs.dropLast ++ [e] :=
    ⟨evs.getLast hne, (List.dropLast_append_getLast hne).symm⟩
  have hmem : e ∈ evs := by rw [he]; simp
  obtain ⟨hk, hu, -⟩ := hev e hmem
  have hrun : keyboardEvents evs s
      = keyboard e.app e.key e.action e.mods e.x e.y (keyboardEvents evs.dropLast s) := by
    conv_lhs => rw [he]
    rw [keyboardEvents_append]
    rfl
  rw [hrun, keyboard_toggled_of_unconsumed _ _ _ _ _ _ _ hu,
    keyboard_pressed_of_unconsumed _ _ _ _ _ _ _ hu, hk]
  simp only [Function.update_same]
  cases (keyboardEvents evs.dropLast s).m_window.m_keyPressed key <;>
    cases newState e.action <;> simp

/-- Witness for C2 (amended): PRESS then RELEASE of key 65 on a fresh object. -/
theorem keyboard_toggle_last_event_change_witness :
    ((keyboardEvents
        [⟨Hooks.passive, 65, ButtonAction.BUTTON_PRESS, 0, 0, 0⟩,
         ⟨Hooks.passive, 65, ButtonAction.BUTTON_RELEASE, 0, 0, 0⟩]
        WindowProfiler.fresh).m_window.m_keyToggled 65 = true ↔
      (keyboardEvents
        [⟨Hooks.passive, 65, ButtonAction.BUTTON_PRESS, 0, 0, 0⟩,
         ⟨Hooks.passive, 65, ButtonAction.BUTTON_RELEASE, 0, 0, 0⟩]
        WindowProfiler.fresh).m_window.m_keyPressed 65
        ≠ (keyboardEvents
            [⟨Hooks.passive, 65, ButtonAction.BUTTON_PRESS, 0, 0, 0⟩]
            WindowProfiler.fresh).m_window.m_keyPressed 65) :=
  keyboard_toggle_last_event_change WindowProfiler.fresh 65
    [⟨Hooks.passive, 65, ButtonAction.BUTTON_PRESS, 0, 0, 0⟩,
     ⟨Hooks.passive, 65, ButtonAction.BUTTON_RELEASE, 0, 0, 0⟩]
    (by simp) (by simp [KeyEvent.unconsumed, Hooks.passive])

/-- C3: when `m_keyPressed[key]` is already true, a REPEAT event for that key
never turns `m_keyToggled[key]` from false to true, whether or not the hook
consumes the event. -/
theorem keyboard_repeat_does_not_retoggle (app : Hooks) (key : KeyCode) (mods x y : Int)
    (s : WindowProfiler) (hp : s.m_window.m_keyPressed key = true)
    (ht : s.m_window.m_keyToggled key = false) :
    (keyboard app key ButtonAction.BUTTON_REPEAT mods x y s).m_window.m_keyToggled key
      = false := by
  cases h : app.key_button key ButtonAction.BUTTON_REPEAT mods
  · rw [keyboard_toggled_of_unconsumed _ _ _ _ _ _ _ h]
    simp [hp, newState]
  · rw [keyboard_window_of_consumed _ _ _ _ _ _ _ h]
    exact ht

/-- Witness for C3: key 65 is held with its toggle flag false, and a REPEAT
leaves the flag false. -/
theorem keyboard_repeat_does_not_retoggle_witness :
    (keyboard Hooks.passive 65 ButtonAction.BUTTON_REPEAT 0 0 0
      { WindowProfiler.fresh with
        m_window := { WindowProfiler.fresh.m_window with
          m_keyPressed := fun k => decide (k = 65) } }).m_window.m_keyToggled 65 = false :=
  keyboard_repeat_does_not_retoggle Hooks.passive 65 0 0 0
    { WindowProfiler.fresh with
      m_window := { WindowProfiler.fresh.m_window with
        m_keyPressed := fun k => decide (k = 65) } }
    (by simp) (by simp [WindowProfiler.fresh])

/-- C4: if the `key_button` hook consumes every key event of a finite sequence
of keyboard events (any keys, any actions), every entry of `m_keyPressed` and of
`m_keyToggled` after the sequence equals its value before the sequence. -/
theorem keyboard_all_consumed_keeps_keys (evs : List KeyEvent) (s : WindowProfiler)
    (hc : ∀ e ∈ evs, e.consumed) :
    ∀ k, (keyboardEvents evs s).m_window.m_keyPressed k = s.m_window.m_keyPressed k ∧
      (keyboardEvents evs s).m_window.m_keyToggled k = s.m_window.m_keyToggled k := by
  induction evs generalizing s with
  | nil => intro k; exact ⟨rfl, rfl⟩
  | cons e evs ih =>
    intro k
    have he : e.consumed := hc e (List.mem_cons_self e evs)
    have ht := ih (keyboard e.app e.key e.action e.mods e.x e.y s)
      (fun e2 h2 => hc e2 (List.mem_cons_of_mem e h2)) k
    rw [keyboardEvents_cons, ht.1, ht.2, keyboard_window_of_consumed _ _ _ _ _ _ _ he]
    exact ⟨rfl, rfl⟩

/-- Witness for C4: a PRESS of key 65 and a RELEASE of key 66, both consumed,
leave the entries of key 65 as they were. -/
theorem keyboard_all_consumed_keeps_keys_witness :
    (∀ e ∈ [(⟨Hooks.greedy, 65, ButtonAction.BUTTON_PRESS, 0, 0, 0⟩ : KeyEvent),
         ⟨Hooks.greedy, 66, ButtonAction.BUTTON_RELEASE, 0, 0, 0⟩], e.consumed) ∧
    (keyboardEvents
        [⟨Hooks.greedy, 65, ButtonAction.BUTTON_PRESS, 0, 0, 0⟩,
         ⟨Hooks.greedy, 66, ButtonAction.BUTTON_RELEASE, 0, 0, 0⟩]
        WindowProfiler.fresh).m_window.m_keyPressed 65
          = WindowProfiler.fresh.m_window.m_keyPressed 65 ∧
    (keyboardEvents
        [⟨Hooks.greedy, 65, ButtonAction.BUTTON_PRESS, 0, 0, 0⟩,
         ⟨Hooks.greedy, 66, ButtonAction.BUTTON_RELEASE, 0, 0, 0⟩]
        WindowProfiler.fresh).m_window.m_keyToggled 65
          = WindowProfiler.fresh.m_window.m_keyToggled 65 :=
  ⟨by simp [KeyEvent.consumed, Hooks.greedy],
    keyboard_all_consumed_keeps_keys
      [⟨Hooks.greedy, 65, ButtonAction.BUTTON_PRESS, 0, 0, 0⟩,
       ⟨Hooks.greedy, 66, ButtonAction.BUTTON_RELEASE, 0, 0, 0⟩]
      WindowProfiler.fresh (by simp [KeyEvent.consumed, Hooks.greedy]) 65⟩

/-! ## Mouse buttons -/

/-- C5: a release event of any button that arrives while `m_mouseButtonFlags` is
0 leaves the mask 0, whatever the `mouse_button` hook answers, and leaves the
cursor position, the wheel, the key state and the view size unchanged. -/
theorem mouse_release_on_empty_mask (F : MouseButtonFlag) (app : Hooks) (Button : MouseButton)
    (mods x y : Int) (s : WindowProfiler) (h0 : s.m_window.m_mouseButtonFlags = 0) :
    (mouse F app Button ButtonAction.BUTTON_RELEASE mods x y s).m_window.m_mouseButtonFlags = 0 ∧
    (mouse F app Button ButtonAction.BUTTON_RELEASE mods x y s).m_window.m_mouseCurrent
      = s.m_window.m_mouseCurrent ∧
    (mouse F app Button ButtonAction.BUTTON_RELEASE mods x y s).m_window.m_wheel
      = s.m_window.m_wheel ∧
    (mouse F app Button ButtonAction.BUTTON_RELEASE mods x y s).m_window.m_keyPressed
      = s.m_window.m_keyPressed ∧
    (mouse F app Button ButtonAction.BUTTON_RELEASE mods x y s).m_window.m_keyToggled
      = s.m_window.m_keyToggled ∧
    (mouse F app Button ButtonAction.BUTTON_RELEASE mods x y s).m_window.m_viewsize
      = s.m_window.m_viewsize := by
  refine ⟨?_, mouse_other_fields F app Button ButtonAction.BUTTON_RELEASE mods x y s⟩
  rw [mouse_flags]
  cases app.mouse_button Button ButtonAction.BUTTON_RELEASE <;> simp [h0]

/-- Witness for C5: a release of the left button on a fresh object. -/
theorem mouse_release_on_empty_mask_witness :
    (mouse MouseButtonFlag.sample Hooks.passive MouseButton.MOUSE_BUTTON_LEFT
      ButtonAction.BUTTON_RELEASE 0 0 0 WindowProfiler.fresh).m_window.m_mouseButtonFlags = 0 :=
  (mouse_release_on_empty_mask MouseButtonFlag.sample Hooks.passive
    MouseButton.MOUSE_BUTTON_LEFT 0 0 0 WindowProfiler.fresh rfl).1

/-- C6: with three flags that are pairwise disjoint bit sets of a 32-bit mask,
`mouse` leaves the mask unchanged when the mask is 0 and the hook consumes the
event; otherwise a press sets the mask to `old ||| flag` and a release with a
non-zero old mask sets it to `old &&& ~flag` (bit by bit: the old bit and not
the bit of the flag); in every case the bits of the other two buttons are
unchanged. -/
theorem mouse_updates_mask (F : MouseButtonFlag) (hF : F.Disjoint) (app : Hooks)
    (Button : MouseButton) (Action : ButtonAction) (mods x y : Int) (s : WindowProfiler)
    (hs : s.m_window.m_mouseButtonFlags < 2 ^ 32) :
    (s.m_window.m_mouseButtonFlags = 0 ∧ app.mouse_button Button Action = true →
      (mouse F app Button Action mods x y s).m_window.m_mouseButtonFlags
        = s.m_window.m_mouseButtonFlags) ∧
    (¬ (s.m_window.m_mouseButtonFlags = 0 ∧ app.mouse_button Button Action = true) →
      Action = ButtonAction.BUTTON_PRESS →
      (mouse F app Button Action mods x y s).m_window.m_mouseButtonFlags
        = s.m_window.m_mouseButtonFlags ||| F.ofButton Button) ∧
    (¬ (s.m_window.m_mouseButtonFlags = 0 ∧ app.mouse_button Button Action = true) →
      Action = ButtonAction.BUTTON_RELEASE → s.m_window.m_mouseButtonFlags ≠ 0 →
      (mouse F app Button Action mods x y s).m_window.m_mouseButtonFlags
        = s.m_window.m_mouseButtonFlags &&& bitNot32 (F.ofButton Button) ∧
      ∀ i, ((mouse F app Button Action mods x y s).m_window.m_mouseButtonFlags).testBit i
        = (s.m_window.m_mouseButtonFlags.testBit i && !(F.ofButton Button).testBit i)) ∧
    (∀ other, other ≠ Button →
      (mouse F app Button Action mods x y s).m_window.m_mouseButtonFlags &&& F.ofButton other
        = s.m_window.m_mouseButtonFlags &&& F.ofButton other) := by
  refine ⟨?_, ?_, ?_, ?_⟩
  · intro hc
    rw [mouse_flags, if_pos hc]
  · intro hc ha
    subst ha
    rw [mouse_flags, if_neg hc]
  · intro hc ha hn
    subst ha
    have hm : (mouse F app Button ButtonAction.BUTTON_RELEASE mods x y s).m_window.m_mouseButtonFlags
        = s.m_window.m_mouseButtonFlags &&& bitNot32 (F.ofButton Button) := by
      rw [mouse_flags, if_neg hc]
      simp [hn]
    refine ⟨hm, fun i => ?_⟩
    rw [hm, testBit_land_bitNot32 _ _ _ hs]
  · intro other ho
    have hd : F.ofButton Button &&& F.ofButton other = 0 := hF.2 Button other (Ne.symm ho)
    rw [mouse_flags]
    split
    · rfl
    · cases Action
      · simp only
        split
        · rfl
        · exact land_bitNot32_land _ _ _ (hF.1 other) hd
      · exact lor_land_of_disjoint _ _ _ hd
      · rfl

/-- Witness for C6: with the flags 1, 4, 2, a press of the middle button while
the left button is held gives the mask 5 and keeps the left and right bits. -/
theorem mouse_updates_mask_witness :
    MouseButtonFlag.sample.Disjoint ∧
    (WindowProfiler.dragging 1).m_window.m_mouseButtonFlags < 2 ^ 32 ∧
    (mouse MouseButtonFlag.sample Hooks.greedy MouseButton.MOUSE_BUTTON_MIDDLE
      ButtonAction.BUTTON_PRESS 0 0 0 (WindowProfiler.dragging 1)).m_window.m_mouseButtonFlags
        = 5 := by
  have hs : (WindowProfiler.dragging 1).m_window.m_mouseButtonFlags < 2 ^ 32 := by
    simp [WindowProfiler.dragging]
  have h := (mouse_updates_mask MouseButtonFlag.sample sample_disjoint Hooks.greedy
    MouseButton.MOUSE_BUTTON_MIDDLE ButtonAction.BUTTON_PRESS 0 0 0
    (WindowProfiler.dragging 1) hs).2.1
    (by simp [WindowProfiler.dragging]) rfl
  refine ⟨sample_disjoint, hs, ?_⟩
  rw [h]
  decide

/-! ## Cursor motion -/

/-- C7: `motion(x, y)` returns without storing, so that the cursor position is
left unchanged, if and only if no mouse button is held and the `mouse_pos` hook
consumes the motion; in every other case, in particular whenever a button is
held whatever the hook answers, `m_mouseCurrent` becomes exactly `(x, y)`.  The
equivalence is stated twice: for every event that is not already at the stored
position, and, without that proviso, for the handler as a map on positions (it
keeps every stored position if and only if no button is held and the hook
consumes).  When the event carries the stored position the store writes the same
value.  The mask, the wheel and the key state are unchanged in all cases. -/
theorem motion_updates_cursor (app : Hooks) (x y : Int) (s : WindowProfiler) :
    (s.m_window.m_mouseButtonFlags = 0 ∧ app.mouse_pos x y = true →
      (motion app x y s).m_window.m_mouseCurrent = s.m_window.m_mouseCurrent) ∧
    (¬ (s.m_window.m_mouseButtonFlags = 0 ∧ app.mouse_pos x y = true) →
      (motion app x y s).m_window.m_mouseCurrent = (x, y)) ∧
    (s.m_window.m_mouseButtonFlags ≠ 0 →
      (motion app x y s).m_window.m_mouseCurrent = (x, y)) ∧
    (s.m_window.m_mouseCurrent ≠ (x, y) →
      ((motion app x y s).m_window.m_mouseCurrent = s.m_window.m_mouseCurrent ↔
        (s.m_window.m_mouseButtonFlags = 0 ∧ app.mouse_pos x y = true))) ∧
    ((∀ p : Int × Int,
        (motion app x y
          { s with m_window := { s.m_window with m_mouseCurrent := p } }).m_window.m_mouseCurrent
            = p) ↔
      (s.m_window.m_mouseButtonFlags = 0 ∧ app.mouse_pos x y = true)) ∧
    ((motion app x y s).m_window.m_mouseCurrent = s.m_window.m_mouseCurrent ↔
      (s.m_window.m_mouseButtonFlags = 0 ∧ app.mouse_pos x y = true) ∨
        s.m_window.m_mouseCurrent = (x, y)) ∧
    (motion app x y s).m_window.m_mouseButtonFlags = s.m_window.m_mouseButtonFlags ∧
    (motion app x y s).m_window.m_wheel = s.m_window.m_wheel ∧
    (motion app x y s).m_window.m_keyPressed = s.m_window.m_keyPressed ∧
    (motion app x y s).m_window.m_keyToggled = s.m_window.m_keyToggled := by
  have hmap : (∀ p : Int × Int,
      (motion app x y
        { s with m_window := { s.m_window with m_mouseCurrent := p } }).m_window.m_mouseCurrent
          = p) ↔
      (s.m_window.m_mouseButtonFlags = 0 ∧ app.mouse_pos x y = true) := by
    constructor
    · intro h
      have h1 := h (x + 1, y)
      by_cases h0 : s.m_window.m_mouseButtonFlags = 0 <;>
        cases hc : app.mouse_pos x y <;>
        simp [motion, WindowProfiler.noButtonAnd, WindowProfiler.call, h0, hc] at h1 ⊢
    · rintro ⟨h0, hc⟩ p
      simp [motion, WindowProfiler.noButtonAnd, WindowProfiler.call, h0, hc]
  refine ⟨?_, ?_, ?_, ?_, hmap, ?_, ?_, ?_, ?_, ?_⟩ <;>
    by_cases h0 : s.m_window.m_mouseButtonFlags = 0 <;>
    cases hc : app.mouse_pos x y <;>
    simp [motion, WindowProfiler.noButtonAnd, WindowProfiler.call, h0, hc, eq_comm]

/-- Witness for C7: a motion to `(7, 9)` while the left button is held and the
cursor is at `(5, 5)` moves the cursor there although the hook would consume it,
so the position is not left unchanged. -/
theorem motion_updates_cursor_witness :
    (WindowProfiler.dragging 1).m_window.m_mouseButtonFlags ≠ 0 ∧
    (motion Hooks.greedy 7 9 (WindowProfiler.dragging 1)).m_window.m_mouseCurrent = (7, 9) ∧
    (WindowProfiler.dragging 1).m_window.m_mouseCurrent ≠ (7, 9) ∧
    ((motion Hooks.greedy 7 9 (WindowProfiler.dragging 1)).m_window.m_mouseCurrent
        = (WindowProfiler.dragging 1).m_window.m_mouseCurrent ↔
      ((WindowProfiler.dragging 1).m_window.m_mouseButtonFlags = 0 ∧
        Hooks.greedy.mouse_pos 7 9 = true)) := by
  have hf : (WindowProfiler.dragging 1).m_window.m_mouseButtonFlags ≠ 0 := by
    simp [WindowProfiler.dragging]
  have hp : (WindowProfiler.dragging 1).m_window.m_mouseCurrent ≠ (7, 9) := by
    simp [WindowProfiler.dragging]
  exact ⟨hf, (motion_updates_cursor Hooks.greedy 7 9 (WindowProfiler.dragging 1)).2.2.1 hf, hp,
    (motion_updates_cursor Hooks.greedy 7 9 (WindowProfiler.dragging 1)).2.2.2.1 hp⟩

/-! ## Wheel -/

/-- C8: `mousewheel(delta)` leaves `m_wheel` unchanged when the `mouse_wheel` hook
consumes the event and otherwise sets it to `old m_wheel + delta` (as a 32-bit
`int`); so after any finite sequence of wheel events the final `m_wheel` is, modulo
`2^32`, the initial `m_wheel` plus the sum of the deltas of exactly the events the
hook did not consume, and it is exactly that sum when no addition overflows. -/
theorem mousewheel_accumulates (evs : List WheelEvent) (s : WindowProfiler) :
    (∀ (app : Hooks) (delta : Int),
      (app.mouse_wheel delta = true →
        (mousewheel app delta s).m_window.m_wheel = s.m_window.m_wheel) ∧
      (app.mouse_wheel delta = false →
        (mousewheel app delta s).m_window.m_wheel = wrapInt32 (s.m_window.m_wheel + delta)) ∧
      (app.mouse_wheel delta = false → inInt32 (s.m_window.m_wheel + delta) = true →
        (mousewheel app delta s).m_window.m_wheel = s.m_window.m_wheel + delta)) ∧
    (mousewheelEvents evs s).m_window.m_wheel
      ≡ s.m_window.m_wheel + unconsumedDelta evs [ZMOD 2 ^ 32] ∧
    (wheelNoOverflow evs s.m_window.m_wheel = true →
      (mousewheelEvents evs s).m_window.m_wheel = s.m_window.m_wheel + unconsumedDelta evs) := by
  refine ⟨fun app delta => ⟨fun h => ?_, fun h => ?_, fun h hr => ?_⟩,
    mousewheelEvents_modEq evs s, mousewheelEvents_exact evs s⟩
  · rw [mousewheel_wheel, if_pos h]
  · rw [mousewheel_wheel, if_neg (by simp [h])]
  · rw [mousewheel_wheel, if_neg (by simp [h]), wrapInt32_of_inInt32 _ hr]

/-- Witness for C8: deltas 3 (kept), 10 (consumed) and -1 (kept) on a fresh
object add up to 2. -/
theorem mousewheel_accumulates_witness :
    wheelNoOverflow [⟨Hooks.passive, 3⟩, ⟨Hooks.greedy, 10⟩, ⟨Hooks.passive, -1⟩]
        WindowProfiler.fresh.m_window.m_wheel = true ∧
    (mousewheelEvents [⟨Hooks.passive, 3⟩, ⟨Hooks.greedy, 10⟩, ⟨Hooks.passive, -1⟩]
        WindowProfiler.fresh).m_window.m_wheel = 2 := by
  have hn : wheelNoOverflow [⟨Hooks.passive, 3⟩, ⟨Hooks.greedy, 10⟩, ⟨Hooks.passive, -1⟩]
      WindowProfiler.fresh.m_window.m_wheel = true := by decide
  have h := (mousewheel_accumulates
    [⟨Hooks.passive, 3⟩, ⟨Hooks.greedy, 10⟩, ⟨Hooks.passive, -1⟩] WindowProfiler.fresh).2.2 hn
  refine ⟨hn, ?_⟩
  rw [h]
  decide

/-! ## Resize -/

/-- C9: `reshape(0, 0)` leaves `m_viewsize` unchanged and does not call the hosted
`resize` hook (its only call is the profiler reset); for every other
`(width, height)`, also with exactly one zero dimension, `m_viewsize` becomes
`(width, height)` and `resize(width, height)` is called exactly once. -/
theorem reshape_ignores_only_zero_size (width height : Int) (s : WindowProfiler) :
    (reshape 0 0 s).m_window.m_viewsize = s.m_window.m_viewsize ∧
    (callsDuring s (reshape 0 0 s)).map (fun r => r.call) = [Call.profiler_reset] ∧
    (¬ (width = 0 ∧ height = 0) →
      (reshape width height s).m_window.m_viewsize = (width, height) ∧
      (callsDuring s (reshape width height s)).map (fun r => r.call)
        = [Call.profiler_reset, Call.resize width height]) := by
  refine ⟨by simp [reshape, WindowProfiler.m_profiler_reset, WindowProfiler.call], ?_, ?_⟩
  · rw [callsDuring_append s _ [⟨Call.profiler_reset, s.m_window⟩]
      (by simp [reshape, WindowProfiler.m_profiler_reset, WindowProfiler.call])]
    rfl
  · intro h
    refine ⟨by simp [reshape, WindowProfiler.m_profiler_reset, WindowProfiler.call, h], ?_⟩
    rw [callsDuring_append s _ [⟨Call.profiler_reset, s.m_window⟩,
      ⟨Call.resize width height, { s.m_window with m_viewsize := (width, height) }⟩]
      (by simp [reshape, WindowProfiler.m_profiler_reset, WindowProfiler.call, h])]
    rfl

/-- Witness for C9: a resize to `(0, 480)`, with exactly one zero dimension, is
recorded and forwarded to the hook. -/
theorem reshape_ignores_only_zero_size_witness :
    ¬ ((0 : Int) = 0 ∧ (480 : Int) = 0) ∧
    (reshape 0 480 WindowProfiler.fresh).m_window.m_viewsize = (0, 480) ∧
    (callsDuring WindowProfiler.fresh (reshape 0 480 WindowProfiler.fresh)).map
        (fun r => r.call) = [Call.profiler_reset, Call.resize 0 480] :=
  ⟨by decide,
    (reshape_ignores_only_zero_size 0 480 WindowProfiler.fresh).2.2 (by decide)⟩

/-! ## Profiler reset -/

/-- C10, the code at the failing input: `motion(3, 4)` on a fresh object moves
the cursor from `(0, 0)` to `(3, 4)`, and the only call it makes is the
`mouse_pos` hook: unlike the other handlers, it does not reset the profiler. -/
theorem motion_does_not_reset_profiler :
    (callsDuring WindowProfiler.fresh (motion Hooks.passive 3 4 WindowProfiler.fresh)).map
        (fun r => r.call) = [Call.mouse_pos 3 4] ∧
    (∀ r ∈ callsDuring WindowProfiler.fresh (motion Hooks.passive 3 4 WindowProfiler.fresh),
      r.call ≠ Call.profiler_reset) ∧
    WindowProfiler.fresh.m_window.m_mouseCurrent = (0, 0) ∧
    (motion Hooks.passive 3 4 WindowProfiler.fresh).m_window.m_mouseCurrent = (3, 4) := by
  have hc : callsDuring WindowProfiler.fresh (motion Hooks.passive 3 4 WindowProfiler.fresh)
      = [⟨Call.mouse_pos 3 4, WindowProfiler.fresh.m_window⟩] := by
    simp [callsDuring, motion, WindowProfiler.noButtonAnd, WindowProfiler.call,
      WindowProfiler.fresh, Hooks.passive]
  refine ⟨by rw [hc]; rfl, ?_, rfl, ?_⟩
  · rw [hc]
    simp
  · simp [motion, WindowProfiler.noButtonAnd, WindowProfiler.call, WindowProfiler.fresh,
      Hooks.passive]

/-- The calls of each handler.  `mouse`, `mousewheel`, `keyboard`, `keyboardchar`
and `reshape` reset the profiler on every invocation and do so first: the reset
is the first call they make, it is made while `m_window` still has its value from
before the handler, and the consume hook (or `resize`) is called after it.
`motion` makes no reset: its only call is the `mouse_pos` hook, when no button is
held. -/
theorem handlers_reset_profiler_first (F : MouseButtonFlag) (app : Hooks) (s : WindowProfiler) :
    (∀ (Button : MouseButton) (Action : ButtonAction) (mods x y : Int),
      callsDuring s (mouse F app Button Action mods x y s)
        = ⟨Call.profiler_reset, s.m_window⟩ ::
            (if s.m_window.m_mouseButtonFlags = 0 then
              [⟨Call.mouse_button Button Action, s.m_window⟩]
            else [])) ∧
    (∀ y : Int,
      callsDuring s (mousewheel app y s)
        = [⟨Call.profiler_reset, s.m_window⟩, ⟨Call.mouse_wheel y, s.m_window⟩]) ∧
    (∀ (key : KeyCode) (action : ButtonAction) (mods x y : Int),
      callsDuring s (keyboard app key action mods x y s)
        = [⟨Call.profiler_reset, s.m_window⟩, ⟨Call.key_button key action mods, s.m_window⟩]) ∧
    (∀ (key : Nat) (mods x y : Int),
      callsDuring s (keyboardchar app key mods x y s)
        = [⟨Call.profiler_reset, s.m_window⟩, ⟨Call.key_char key, s.m_window⟩]) ∧
    (∀ width height : Int,
      callsDuring s (reshape width height s)
        = ⟨Call.profiler_reset, s.m_window⟩ ::
            (if width = 0 ∧ height = 0 then []
            else [⟨Call.resize width height,
              { s.m_window with m_viewsize := (width, height) }⟩])) ∧
    (∀ x y : Int,
      callsDuring s (motion app x y s)
        = if s.m_window.m_mouseButtonFlags = 0 then [⟨Call.mouse_pos x y, s.m_window⟩]
          else []) := by
  refine ⟨?_, ?_, ?_, ?_, ?_, ?_⟩
  · intro Button Action mods x y
    apply callsDuring_append
    by_cases h0 : s.m_window.m_mouseButtonFlags = 0 <;>
      cases hc : app.mouse_button Button Action <;>
      cases Action <;>
      simp [mouse, WindowProfiler.noButtonAnd, WindowProfiler.call,
        WindowProfiler.m_profiler_reset, h0, hc]
  · intro y
    apply callsDuring_append
    cases hc : app.mouse_wheel y <;>
      simp [mousewheel, WindowProfiler.call, WindowProfiler.m_profiler_reset, hc]
  · intro key action mods x y
    apply callsDuring_append
    cases hc : app.key_button key action mods <;>
      simp [keyboard, WindowProfiler.call, WindowProfiler.m_profiler_reset, hc]
  · intro key mods x y
    apply callsDuring_append
    simp [keyboardchar, WindowProfiler.call, WindowProfiler.m_profiler_reset]
  · intro width height
    apply callsDuring_append
    by_cases h : width = 0 ∧ height = 0 <;>
      simp [reshape, WindowProfiler.call, WindowProfiler.m_profiler_reset, h]
  · intro x y
    apply callsDuring_append
    by_cases h0 : s.m_window.m_mouseButtonFlags = 0 <;>
      cases hc : app.mouse_pos x y <;>
      simp [motion, WindowProfiler.noButtonAnd, WindowProfiler.call, h0, hc]

/-! ## Title refresh -/

theorem callsDuring_call (s : WindowProfiler) (c : Call) :
    callsDuring s (s.call c) = [⟨c, s.m_window⟩] := by
  simp [callsDuring, WindowProfiler.call]

theorem callsDuring_call_call (s : WindowProfiler) (c d : Call) :
    callsDuring s ((s.call c).call d) = [⟨c, s.m_window⟩, ⟨d, s.m_window⟩] := by
  simp [callsDuring, WindowProfiler.call]

theorem roundDouble_zero : roundDouble 0 = 0 := by
  simp [roundDouble]

theorem doubleDiv_doubleMul_zero (f : ℚ) : doubleDiv (doubleMul 0 1000) f = 0 := by
  simp [doubleDiv, doubleMul, roundDouble_zero]

/-- The literals `0.1` and `2.1` denote the binary64 values nearest to `1/10` and
`21/10`. -/
theorem double_literals :
    roundDouble (1 / 10) = double_0_1 ∧ roundDouble (21 / 10) = double_2_1 := by
  decide!

/-- In `double` arithmetic `2.1 - 0.1` is exactly `2.0`, although the exact
difference of the two values is above 2. -/
theorem doubleSub_2_1_0_1 :
    doubleSub double_2_1 double_0_1 = 2 ∧ (2 : ℚ) < double_2_1 - double_0_1 := by
  decide!

theorem refreshTitle_of_trigger (timeCurrent : ℚ) (v : LoopVars) (s : WindowProfiler)
    (h : doubleSub timeCurrent v.timeBegin > 2 ∨ v.lastVsync ≠ s.m_vsync) :
    refreshTitle timeCurrent v s
      = ({ v with frames := 0, timeBegin := timeCurrent, lastVsync := s.m_vsync },
          (s.call Call.sysGetTime).call
            (Call.setTitle
              (doubleDiv
                (doubleMul
                  (if v.lastVsync ≠ s.m_vsync then 0 else doubleSub timeCurrent v.timeBegin)
                  1000)
                ((v.frames + 1 : ℕ) : ℚ))
              s.m_vsync)) := by
  unfold refreshTitle
  simp only [WindowProfiler.call]
  rw [if_pos h]

theorem refreshTitle_of_no_trigger (timeCurrent : ℚ) (v : LoopVars) (s : WindowProfiler)
    (h : ¬ (doubleSub timeCurrent v.timeBegin > 2 ∨ v.lastVsync ≠ s.m_vsync)) :
    refreshTitle timeCurrent v s = ({ v with frames := v.frames + 1 }, s.call Call.sysGetTime) := by
  unfold refreshTitle
  simp only [WindowProfiler.call]
  rw [if_neg h]

/-- C17: the title-refresh step first counts the frame; it sets the title if and
only if `timeCurrent - timeBegin > 2.0` or `lastVsync != m_vsync`, the difference
being the `double` difference the code computes; when it sets the title the frame
counter becomes 0, `timeBegin` becomes `timeCurrent` and `lastVsync` becomes
`m_vsync`, and with vsync unchanged the number shown is
`(timeCurrent - timeBegin) * 1000 / frames` in `double` arithmetic for the
incremented `frames`; when it does not set the title, `timeBegin` and `lastVsync`
keep their values and the frame counter keeps its incremented value. -/
theorem refreshTitle_step (timeCurrent : ℚ) (v : LoopVars) (s : WindowProfiler) :
    ((∃ shown suffix, Call.setTitle shown suffix
          ∈ callNames (callsDuring s (refreshTitle timeCurrent v s).2)) ↔
      (doubleSub timeCurrent v.timeBegin > 2 ∨ v.lastVsync ≠ s.m_vsync)) ∧
    ((doubleSub timeCurrent v.timeBegin > 2 ∨ v.lastVsync ≠ s.m_vsync) →
      (refreshTitle timeCurrent v s).1.frames = 0 ∧
      (refreshTitle timeCurrent v s).1.timeBegin = timeCurrent ∧
      (refreshTitle timeCurrent v s).1.lastVsync = s.m_vsync ∧
      (v.lastVsync = s.m_vsync →
        callNames (callsDuring s (refreshTitle timeCurrent v s).2)
          = [Call.sysGetTime,
              Call.setTitle
                (doubleDiv (doubleMul (doubleSub timeCurrent v.timeBegin) 1000)
                  ((v.frames + 1 : ℕ) : ℚ))
                s.m_vsync])) ∧
    (¬ (doubleSub timeCurrent v.timeBegin > 2 ∨ v.lastVsync ≠ s.m_vsync) →
      callNames (callsDuring s (refreshTitle timeCurrent v s).2) = [Call.sysGetTime] ∧
      (refreshTitle timeCurrent v s).1.timeBegin = v.timeBegin ∧
      (refreshTitle timeCurrent v s).1.lastVsync = v.lastVsync ∧
      (refreshTitle timeCurrent v s).1.frames = v.frames + 1) := by
  by_cases h : doubleSub timeCurrent v.timeBegin > 2 ∨ v.lastVsync ≠ s.m_vsync
  · rw [refreshTitle_of_trigger timeCurrent v s h, callsDuring_call_call]
    refine ⟨⟨fun _ => h, fun _ => ⟨_, _, List.mem_cons_of_mem _ (List.mem_cons_self _ _)⟩⟩,
      fun _ => ⟨rfl, rfl, rfl, ?_⟩, fun hn => absurd h hn⟩
    intro hv
    simp [callNames, hv]
  · rw [refreshTitle_of_no_trigger timeCurrent v s h, callsDuring_call]
    refine ⟨⟨?_, fun h2 => absurd h2 h⟩, fun h2 => absurd h2 h, fun _ => ⟨rfl, rfl, rfl, rfl⟩⟩
    rintro ⟨shown, suffix, hm⟩
    simp [callNames] at hm

/-- Witness for C17: with 119 frames counted and vsync unchanged, a clock window
from 10 to 13 sets the title to `3 * 1000 / 120 = 25`, and a clock window from
the `double` 0.1 to the `double` 2.1, whose `double` difference is exactly 2.0,
sets no title. -/
theorem refreshTitle_step_witness :
    (doubleSub 13 10 > 2 ∨ true ≠ (vsync true WindowProfiler.fresh).m_vsync) ∧
    callNames (callsDuring (vsync true WindowProfiler.fresh)
        (refreshTitle 13 ⟨0, 10, 119, true⟩ (vsync true WindowProfiler.fresh)).2)
      = [Call.sysGetTime, Call.setTitle 25 true] ∧
    ¬ (doubleSub double_2_1 double_0_1 > 2 ∨ true ≠ (vsync true WindowProfiler.fresh).m_vsync) ∧
    callNames (callsDuring (vsync true WindowProfiler.fresh)
        (refreshTitle double_2_1 ⟨0, double_0_1, 119, true⟩
          (vsync true WindowProfiler.fresh)).2)
      = [Call.sysGetTime] := by
  have ht : (doubleSub 13 10 > 2 ∨ true ≠ (vsync true WindowProfiler.fresh).m_vsync) := by
    left; decide!
  have hval : doubleDiv (doubleMul (doubleSub 13 10) 1000) ((119 + 1 : ℕ) : ℚ) = 25 := by
    decide!
  have hn : ¬ (doubleSub double_2_1 double_0_1 > 2 ∨
      true ≠ (vsync true WindowProfiler.fresh).m_vsync) := by
    rw [doubleSub_2_1_0_1.1]
    simp [vsync, WindowProfiler.call]
  have h := ((refreshTitle_step 13 ⟨0, 10, 119, true⟩ (vsync true WindowProfiler.fresh)).2.1
    ht).2.2.2 rfl
  have h2 := ((refreshTitle_step double_2_1 ⟨0, double_0_1, 119, true⟩
    (vsync true WindowProfiler.fresh)).2.2 hn).1
  refine ⟨ht, ?_, hn, h2⟩
  rw [h, hval]
  rfl

/-- Counterexample to C15 as stated: with 119 frames counted before the current
one (120 with it), the clock window started at 10, the clock now at 12 (elapsed
exactly 2) and vsync unchanged, the title is not set: the only call is the clock
reading, and the frame counter stays at 120. -/
theorem title_not_refreshed_at_exactly_two :
    (119 + 1 = 120) ∧ (doubleSub 12 10 = 2) ∧
    (vsync true WindowProfiler.fresh).m_vsync = true ∧
    callNames (callsDuring (vsync true WindowProfiler.fresh)
        (refreshTitle 12 ⟨0, 10, 119, true⟩ (vsync true WindowProfiler.fresh)).2)
      = [Call.sysGetTime] ∧
    (refreshTitle 12 ⟨0, 10, 119, true⟩ (vsync true WindowProfiler.fresh)).1.frames = 120 ∧
    (refreshTitle 12 ⟨0, 10, 119, true⟩ (vsync true WindowProfiler.fresh)).1.timeBegin = 10 := by
  have h2 : doubleSub 12 10 = 2 := by decide!
  have hn : ¬ (doubleSub 12 (⟨0, 10, 119, true⟩ : LoopVars).timeBegin > 2 ∨
      (⟨0, 10, 119, true⟩ : LoopVars).lastVsync ≠ (vsync true WindowProfiler.fresh).m_vsync) := by
    simp only [h2]
    simp [vsync, WindowProfiler.call]
  rw [refreshTitle_of_no_trigger _ _ _ hn, callsDuring_call]
  exact ⟨rfl, h2, rfl, rfl, rfl, rfl⟩

/-- C15 (amended): in the title-refresh step with a frame count of 120 (the
current frame included) and vsync unchanged since the last refresh, the title is
refreshed if and only if the elapsed time, the `double` difference
`timeCurrent - timeBegin` the code computes, is strictly greater than 2.0.  At an
elapsed time of exactly 2.0, or below, it is not refreshed: the frame counter
stays 120 and the title-window clock and the recorded vsync value keep their
values.  At an elapsed time above 2.0 it is refreshed and shows
`elapsed * 1000 / 120` in `double` arithmetic, after which the frame counter is 0
and the title-window clock is restarted at the current time.  The number of the
scenario, `2.0 * 1000 / 120` (the `double` nearest to `50/3`, about 16.67), is
therefore not shown at an elapsed time of 2.0. -/
theorem title_refresh_at_120_frames (timeCurrent : ℚ) (v : LoopVars) (s : WindowProfiler)
    (hf : v.frames + 1 = 120) (hv : v.lastVsync = s.m_vsync) :
    ((∃ shown suffix, Call.setTitle shown suffix
          ∈ callNames (callsDuring s (refreshTitle timeCurrent v s).2)) ↔
      doubleSub timeCurrent v.timeBegin > 2) ∧
    (doubleSub timeCurrent v.timeBegin ≤ 2 →
      callNames (callsDuring s (refreshTitle timeCurrent v s).2) = [Call.sysGetTime] ∧
      (refreshTitle timeCurrent v s).1.frames = 120 ∧
      (refreshTitle timeCurrent v s).1.timeBegin = v.timeBegin ∧
      (refreshTitle timeCurrent v s).1.lastVsync = v.lastVsync) ∧
    (doubleSub timeCurrent v.timeBegin > 2 →
      callNames (callsDuring s (refreshTitle timeCurrent v s).2)
        = [Call.sysGetTime,
            Call.setTitle (doubleDiv (doubleMul (doubleSub timeCurrent v.timeBegin) 1000) 120)
              s.m_vsync] ∧
      (refreshTitle timeCurrent v s).1.frames = 0 ∧
      (refreshTitle timeCurrent v s).1.timeBegin = timeCurrent) ∧
    (doubleDiv (doubleMul 2 1000) 120 = roundDouble (50 / 3)) := by
  have hiff : (doubleSub timeCurrent v.timeBegin > 2 ∨ v.lastVsync ≠ s.m_vsync) ↔
      doubleSub timeCurrent v.timeBegin > 2 := by
    constructor
    · rintro (h | h)
      · exact h
      · exact absurd hv h
    · exact Or.inl
  refine ⟨?_, fun h2 => ?_, fun h2 => ?_, by decide!⟩
  · by_cases h : doubleSub timeCurrent v.timeBegin > 2 ∨ v.lastVsync ≠ s.m_vsync
    · rw [refreshTitle_of_trigger timeCurrent v s h, callsDuring_call_call]
      exact ⟨fun _ => hiff.mp h,
        fun _ => ⟨_, _, List.mem_cons_of_mem _ (List.mem_cons_self _ _)⟩⟩
    · rw [refreshTitle_of_no_trigger timeCurrent v s h, callsDuring_call]
      refine ⟨?_, fun h3 => absurd (hiff.mpr h3) h⟩
      rintro ⟨shown, suffix, hm⟩
      simp [callNames] at hm
  · have hn : ¬ (doubleSub timeCurrent v.timeBegin > 2 ∨ v.lastVsync ≠ s.m_vsync) := by
      rw [hiff]
      exact not_lt.mpr h2
    rw [refreshTitle_of_no_trigger _ _ _ hn, callsDuring_call]
    exact ⟨rfl, hf, rfl, rfl⟩
  · rw [refreshTitle_of_trigger _ _ _ (Or.inl h2), callsDuring_call_call]
    refine ⟨?_, rfl, rfl⟩
    simp [callNames, hv, hf]

/-- Witness for C15 (amended): 119 frames counted, clock window started at 10, now
13, vsync on and unchanged: the title shows `3 * 1000 / 120 = 25`. -/
theorem title_refresh_at_120_frames_witness :
    (doubleSub 13 10 > 2) ∧
    callNames (callsDuring (vsync true WindowProfiler.fresh)
        (refreshTitle 13 ⟨0, 10, 119, true⟩ (vsync true WindowProfiler.fresh)).2)
      = [Call.sysGetTime, Call.setTitle 25 true] := by
  have ht : (doubleSub 13 10 > 2) := by decide!
  have hval : doubleDiv (doubleMul (doubleSub 13 10) 1000) 120 = 25 := by decide!
  have h := ((title_refresh_at_120_frames 13 ⟨0, 10, 119, true⟩
    (vsync true WindowProfiler.fresh) rfl rfl).2.2.1 ht).1
  refine ⟨ht, ?_⟩
  rw [h, hval]
  rfl

/-- C16: whenever the vsync flag differs from the value recorded at the last
title refresh, the step refreshes the title and the number shown is exactly 0,
for every elapsed time and every frame count; the divisor (the incremented frame
count) is at least 1; afterwards the frame counter is 0, the title-window clock
starts at the current time and the recorded vsync value is the current flag. -/
theorem title_after_vsync_change (timeCurrent : ℚ) (v : LoopVars) (s : WindowProfiler)
    (h : v.lastVsync ≠ s.m_vsync) :
    callNames (callsDuring s (refreshTitle timeCurrent v s).2)
      = [Call.sysGetTime, Call.setTitle 0 s.m_vsync] ∧
    (1 : ℚ) ≤ ((v.frames + 1 : ℕ) : ℚ) ∧
    (refreshTitle timeCurrent v s).1.frames = 0 ∧
    (refreshTitle timeCurrent v s).1.timeBegin = timeCurrent ∧
    (refreshTitle timeCurrent v s).1.lastVsync = (refreshTitle timeCurrent v s).2.m_vsync ∧
    (refreshTitle timeCurrent v s).2.m_vsync = s.m_vsync := by
  rw [refreshTitle_of_trigger _ _ _ (Or.inr h), callsDuring_call_call, if_pos h,
    doubleDiv_doubleMul_zero]
  refine ⟨rfl, ?_, rfl, rfl, rfl, rfl⟩
  push_cast
  have h0 : (0 : ℚ) ≤ (v.frames : ℚ) := Nat.cast_nonneg v.frames
  linarith

/-- Witness for C16: the baseline says vsync off, the flag is on; after 7 frames
and an elapsed time of 5 the title shows 0. -/
theorem title_after_vsync_change_witness :
    callNames (callsDuring (vsync true WindowProfiler.fresh)
        (refreshTitle 15 ⟨0, 10, 7, false⟩ (vsync true WindowProfiler.fresh)).2)
      = [Call.sysGetTime, Call.setTitle 0 (vsync true WindowProfiler.fresh).m_vsync] :=
  (title_after_vsync_change 15 ⟨0, 10, 7, false⟩ (vsync true WindowProfiler.fresh)
    (by simp [vsync, WindowProfiler.call])).1

/-! ## Hook bypass while a button is held -/

/-- C20: while a mouse button is held (`m_mouseButtonFlags != 0`), `motion` and
`mouse` do not call the `mouse_pos` / `mouse_button` hook, and the state they
produce is the same for any two hook records; when the mask is 0 the hook is
called exactly once per event. -/
theorem hook_bypassed_while_button_held (F : MouseButtonFlag) (app other : Hooks)
    (Button : MouseButton) (Action : ButtonAction) (mods x y : Int) (s : WindowProfiler) :
    (s.m_window.m_mouseButtonFlags ≠ 0 →
      motion app x y s = motion other x y s ∧
      mouse F app Button Action mods x y s = mouse F other Button Action mods x y s ∧
      callsDuring s (motion app x y s) = [] ∧
      callsDuring s (mouse F app Button Action mods x y s)
        = [⟨Call.profiler_reset, s.m_window⟩]) ∧
    (s.m_window.m_mouseButtonFlags = 0 →
      callsDuring s (motion app x y s) = [⟨Call.mouse_pos x y, s.m_window⟩] ∧
      callsDuring s (mouse F app Button Action mods x y s)
        = [⟨Call.profiler_reset, s.m_window⟩, ⟨Call.mouse_button Button Action, s.m_window⟩]) := by
  constructor
  · intro h0
    refine ⟨?_, ?_, ?_, ?_⟩
    · simp [motion, WindowProfiler.noButtonAnd, h0]
    · simp [mouse, WindowProfiler.noButtonAnd, WindowProfiler.call,
        WindowProfiler.m_profiler_reset, h0]
    · apply callsDuring_append
      simp [motion, WindowProfiler.noButtonAnd, h0]
    · apply callsDuring_append
      cases Action <;>
        simp [mouse, WindowProfiler.noButtonAnd, WindowProfiler.call,
          WindowProfiler.m_profiler_reset, h0]
  · intro h0
    constructor
    · apply callsDuring_append
      cases hc : app.mouse_pos x y <;>
        simp [motion, WindowProfiler.noButtonAnd, WindowProfiler.call, h0, hc]
    · apply callsDuring_append
      cases hc : app.mouse_button Button Action <;> cases Action <;>
        simp [mouse, WindowProfiler.noButtonAnd, WindowProfiler.call,
          WindowProfiler.m_profiler_reset, h0, hc]

/-- Witness for C20: with the left button held, a motion handled with greedy
hooks gives the same state as with passive hooks and calls nothing. -/
theorem hook_bypassed_while_button_held_witness :
    (WindowProfiler.dragging 1).m_window.m_mouseButtonFlags ≠ 0 ∧
    motion Hooks.greedy 7 9 (WindowProfiler.dragging 1)
      = motion Hooks.passive 7 9 (WindowProfiler.dragging 1) ∧
    callsDuring (WindowProfiler.dragging 1)
      (motion Hooks.greedy 7 9 (WindowProfiler.dragging 1)) = [] := by
  have h0 : (WindowProfiler.dragging 1).m_window.m_mouseButtonFlags ≠ 0 := by
    simp [WindowProfiler.dragging]
  have h := (hook_bypassed_while_button_held MouseButtonFlag.sample Hooks.greedy Hooks.passive
    MouseButton.MOUSE_BUTTON_LEFT ButtonAction.BUTTON_PRESS 0 7 9
    (WindowProfiler.dragging 1)).1 h0
  exact ⟨h0, h.1, h.2.2.1⟩

/-! ## The driver: setup, result and teardown -/

theorem setup_calls (width height : Int) (s : WindowProfiler) :
    (setup width height s).calls
      = s.calls ++
        [⟨Call.begin, { s.m_window with m_viewsize := (width, height) }⟩,
         ⟨Call.swapInterval 1, { s.m_window with m_viewsize := (width, height) }⟩,
         ⟨Call.printf_vsync true, { s.m_window with m_viewsize := (width, height) }⟩,
         ⟨Call.profiler_init, { s.m_window with m_viewsize := (width, height) }⟩,
         ⟨Call.sysGetTime, { s.m_window with m_viewsize := (width, height) }⟩,
         ⟨Call.sysGetTime, { s.m_window with m_viewsize := (width, height) }⟩] := by
  simp [setup, vsync, WindowProfiler.call]

theorem setup_vsync (width height : Int) (s : WindowProfiler) :
    (setup width height s).m_vsync = true := by
  simp [setup, vsync, WindowProfiler.call]

theorem run_of_activate_false (F : MouseButtonFlag) (K : KeyCodes) (env : Env)
    (width height Major Minor : Int) (s : WindowProfiler) (ha : env.activate = false) :
    run F K env width height Major Minor s
      = some (EXIT_FAILURE,
          ((s.call Call.sysVisibleConsole).call (Call.activate width height Major Minor)).call
            (Call.printf_no_context Major Minor)) := by
  simp [run, ha]

theorem run_of_begin_false (F : MouseButtonFlag) (K : KeyCodes) (env : Env)
    (width height Major Minor : Int) (s : WindowProfiler) (ha : env.activate = true)
    (hb : env.begin = false) :
    run F K env width height Major Minor s
      = some (EXIT_FAILURE,
          (setup width height
            ((s.call Call.sysVisibleConsole).call
              (Call.activate width height Major Minor))).call Call.end_) := by
  simp [run, ha, hb]

theorem run_of_begin_true (F : MouseButtonFlag) (K : KeyCodes) (env : Env)
    (width height Major Minor : Int) (s : WindowProfiler) (ha : env.activate = true)
    (hb : env.begin = true) :
    run F K env width height Major Minor s
      = (loop F K env.iterations
          { timeStart := env.timeStart, timeBegin := env.timeBegin, frames := 0,
            lastVsync := true }
          (setup width height
            ((s.call Call.sysVisibleConsole).call
              (Call.activate width height Major Minor)))).map
          (fun t => (EXIT_SUCCESS, t.call Call.end_)) := by
  simp [run, ha, hb, setup_vsync]

/-- The calls of `run` when `activate` succeeds and `begin()` fails. -/
theorem run_begin_false_calls (width height Major Minor : Int) (s : WindowProfiler) :
    callNames (callsDuring s
        ((setup width height
          ((s.call Call.sysVisibleConsole).call
            (Call.activate width height Major Minor))).call Call.end_))
      = [Call.sysVisibleConsole, Call.activate width height Major Minor, Call.begin,
          Call.swapInterval 1, Call.printf_vsync true, Call.profiler_init, Call.sysGetTime,
          Call.sysGetTime, Call.end_] := by
  rw [callsDuring_append s _
    [⟨Call.sysVisibleConsole, s.m_window⟩, ⟨Call.activate width height Major Minor, s.m_window⟩,
     ⟨Call.begin, { s.m_window with m_viewsize := (width, height) }⟩,
     ⟨Call.swapInterval 1, { s.m_window with m_viewsize := (width, height) }⟩,
     ⟨Call.printf_vsync true, { s.m_window with m_viewsize := (width, height) }⟩,
     ⟨Call.profiler_init, { s.m_window with m_viewsize := (width, height) }⟩,
     ⟨Call.sysGetTime, { s.m_window with m_viewsize := (width, height) }⟩,
     ⟨Call.sysGetTime, { s.m_window with m_viewsize := (width, height) }⟩,
     ⟨Call.end_, { s.m_window with m_viewsize := (width, height) }⟩]
    (by simp [setup, vsync, WindowProfiler.call])]
  rfl

/-- C12: `run` returns `EXIT_FAILURE` whenever `activate` fails or `begin()`
returns false (and it does return then); and for every execution that returns,
the result is `EXIT_SUCCESS` if and only if `activate` succeeded and `begin()`
returned true, in which case the loop was entered and has ended. -/
theorem run_exit_code (F : MouseButtonFlag) (K : KeyCodes) (env : Env)
    (width height Major Minor : Int) (s : WindowProfiler) :
    (env.activate = false ∨ env.begin = false →
      ∃ t, run F K env width height Major Minor s = some (EXIT_FAILURE, t)) ∧
    (∀ code t, run F K env width height Major Minor s = some (code, t) →
      (code = EXIT_SUCCESS ↔ (env.activate = true ∧ env.begin = true)) ∧
      (code = EXIT_FAILURE ↔ (env.activate = false ∨ env.begin = false)) ∧
      (code = EXIT_SUCCESS →
        ∃ u, loop F K env.iterations
            { timeStart := env.timeStart, timeBegin := env.timeBegin, frames := 0,
              lastVsync := true }
            (setup width height
              ((s.call Call.sysVisibleConsole).call
                (Call.activate width height Major Minor))) = some u ∧
          t = u.call Call.end_)) ∧
    EXIT_SUCCESS ≠ EXIT_FAILURE := by
  have hne : EXIT_SUCCESS ≠ EXIT_FAILURE := by decide
  refine ⟨?_, ?_, hne⟩
  · intro h
    cases ha : env.activate
    · exact ⟨_, run_of_activate_false F K env width height Major Minor s ha⟩
    · have hb : env.begin = false := by
        rcases h with h | h
        · rw [ha] at h; exact absurd h (by simp)
        · exact h
      exact ⟨_, run_of_begin_false F K env width height Major Minor s ha hb⟩
  · intro code t hr
    cases ha : env.activate
    · rw [run_of_activate_false F K env width height Major Minor s ha] at hr
      have hc : code = EXIT_FAILURE := by
        have := congrArg (fun o => o.map Prod.fst) hr
        simpa using this.symm
      subst hc
      refine ⟨⟨fun h => absurd h.symm hne, fun h => by simp at h⟩, by simp,
        fun h => absurd h.symm hne⟩
    · cases hb : env.begin
      · rw [run_of_begin_false F K env width height Major Minor s ha hb] at hr
        have hc : code = EXIT_FAILURE := by
          have := congrArg (fun o => o.map Prod.fst) hr
          simpa using this.symm
        subst hc
        refine ⟨⟨fun h => absurd h.symm hne, fun h => by simp at h⟩, by simp,
          fun h => absurd h.symm hne⟩
      · rw [run_of_begin_true F K env width height Major Minor s ha hb] at hr
        rw [Option.map_eq_some'] at hr
        obtain ⟨u, hu, hp⟩ := hr
        have hc : code = EXIT_SUCCESS := (congrArg Prod.fst hp).symm
        have ht : t = u.call Call.end_ := (congrArg Prod.snd hp).symm
        subst hc
        refine ⟨by simp, ⟨fun h => absurd h hne, fun h => by simp at h⟩, fun _ => ⟨u, hu, ht⟩⟩

/-- Witness for C12: `activate` and `begin()` succeed and the first poll reports
that the window is to close: `run` returns `EXIT_SUCCESS`. -/
theorem run_exit_code_witness :
    (run MouseButtonFlag.sample KeyCodes.sample (Env.sample true true [Iteration.closing])
        640 480 4 3 WindowProfiler.fresh).map Prod.fst = some EXIT_SUCCESS ∧
    ((Env.sample true true [Iteration.closing]).activate = true ∧
      (Env.sample true true [Iteration.closing]).begin = true) := by
  have hr : ∃ t, run MouseButtonFlag.sample KeyCodes.sample
      (Env.sample true true [Iteration.closing]) 640 480 4 3 WindowProfiler.fresh
        = some (EXIT_SUCCESS, t) := ⟨_, rfl⟩
  obtain ⟨t, ht⟩ := hr
  refine ⟨by rw [ht]; rfl, ?_⟩
  exact ((run_exit_code MouseButtonFlag.sample KeyCodes.sample
    (Env.sample true true [Iteration.closing]) 640 480 4 3 WindowProfiler.fresh).2.1
    EXIT_SUCCESS t ht).1.mp rfl

/-- C13: when `activate` succeeds and `begin()` reports failure, `run` returns
`EXIT_FAILURE`; the loop body is never entered (no `think`, no poll, no swap) and
the hosted `end()` is called exactly once, as the last call. -/
theorem run_begin_failure (F : MouseButtonFlag) (K : KeyCodes) (env : Env)
    (width height Major Minor : Int) (s : WindowProfiler) (ha : env.activate = true)
    (hb : env.begin = false) :
    ∃ t, run F K env width height Major Minor s = some (EXIT_FAILURE, t) ∧
      (∀ time, Call.think time ∉ callNames (callsDuring s t)) ∧
      Call.sysPollEvents ∉ callNames (callsDuring s t) ∧
      Call.sysWaitEvents ∉ callNames (callsDuring s t) ∧
      Call.swapBuffers ∉ callNames (callsDuring s t) ∧
      (callNames (callsDuring s t)).count Call.end_ = 1 ∧
      (callNames (callsDuring s t)).getLast? = some Call.end_ := by
  refine ⟨_, run_of_begin_false F K env width height Major Minor s ha hb, ?_⟩
  rw [run_begin_false_calls]
  refine ⟨fun time => by simp, by simp, by simp, by simp, by simp, by simp⟩

/-- Witness for C13: `begin()` fails in an execution whose recorded loop passes
are never used. -/
theorem run_begin_failure_witness :
    ∃ t, run MouseButtonFlag.sample KeyCodes.sample
        (Env.sample true false [Iteration.delivering []]) 640 480 4 3 WindowProfiler.fresh
          = some (EXIT_FAILURE, t) ∧
      (∀ time, Call.think time ∉ callNames (callsDuring WindowProfiler.fresh t)) ∧
      Call.sysPollEvents ∉ callNames (callsDuring WindowProfiler.fresh t) ∧
      Call.sysWaitEvents ∉ callNames (callsDuring WindowProfiler.fresh t) ∧
      Call.swapBuffers ∉ callNames (callsDuring WindowProfiler.fresh t) ∧
      (callNames (callsDuring WindowProfiler.fresh t)).count Call.end_ = 1 ∧
      (callNames (callsDuring WindowProfiler.fresh t)).getLast? = some Call.end_ :=
  run_begin_failure MouseButtonFlag.sample KeyCodes.sample
    (Env.sample true false [Iteration.delivering []]) 640 480 4 3 WindowProfiler.fresh rfl rfl

/-- Counterexample to C14 as stated: when `activate` fails, `run` returns
`EXIT_FAILURE` after three calls (console, `activate`, the error message); the
hosted `end()` is not among them. -/
theorem run_activate_failure_skips_end :
    (Env.sample false true []).activate = false ∧
    (run MouseButtonFlag.sample KeyCodes.sample (Env.sample false true []) 640 480 4 3
        WindowProfiler.fresh).map Prod.fst = some EXIT_FAILURE ∧
    (run MouseButtonFlag.sample KeyCodes.sample (Env.sample false true []) 640 480 4 3
        WindowProfiler.fresh).map (fun r => callNames (callsDuring WindowProfiler.fresh r.2))
      = some [Call.sysVisibleConsole, Call.activate 640 480 4 3, Call.printf_no_context 4 3] ∧
    Call.end_ ∉ [Call.sysVisibleConsole, Call.activate 640 480 4 3,
      Call.printf_no_context 4 3] := by
  rw [run_of_activate_false _ _ _ _ _ _ _ _ rfl]
  refine ⟨rfl, rfl, ?_, by simp⟩
  simp [callNames, callsDuring, WindowProfiler.call, WindowProfiler.fresh]

/-- C14 (amended): of the two fatal setup errors only the failure of `begin()`
runs the teardown: then the hosted `end()` is called, once and as the last call,
before `run` returns `EXIT_FAILURE`.  When `activate` fails, `run` prints the
error and returns `EXIT_FAILURE` at once; neither `begin()` nor `end()` is
called. -/
theorem run_fatal_setup_teardown (F : MouseButtonFlag) (K : KeyCodes) (env : Env)
    (width height Major Minor : Int) (s : WindowProfiler) :
    (env.activate = false →
      ∃ t, run F K env width height Major Minor s = some (EXIT_FAILURE, t) ∧
        callNames (callsDuring s t)
          = [Call.sysVisibleConsole, Call.activate width height Major Minor,
              Call.printf_no_context Major Minor]) ∧
    (env.activate = true → env.begin = false →
      ∃ t, run F K env width height Major Minor s = some (EXIT_FAILURE, t) ∧
        (callNames (callsDuring s t)).getLast? = some Call.end_ ∧
        (callNames (callsDuring s t)).count Call.end_ = 1) := by
  constructor
  · intro ha
    refine ⟨_, run_of_activate_false F K env width height Major Minor s ha, ?_⟩
    simp [callNames, callsDuring, WindowProfiler.call]
  · intro ha hb
    refine ⟨_, run_of_begin_false F K env width height Major Minor s ha hb, ?_⟩
    rw [run_begin_false_calls]
    exact ⟨by simp, by simp⟩

/-- Witness for C14 (amended): `begin()` fails; the last call of `run` is the
hosted `end()`. -/
theorem run_fatal_setup_teardown_witness :
    ∃ t, run MouseButtonFlag.sample KeyCodes.sample (Env.sample true false []) 640 480 4 3
        WindowProfiler.fresh = some (EXIT_FAILURE, t) ∧
      (callNames (callsDuring WindowProfiler.fresh t)).getLast? = some Call.end_ ∧
      (callNames (callsDuring WindowProfiler.fresh t)).count Call.end_ = 1 :=
  (run_fatal_setup_teardown MouseButtonFlag.sample KeyCodes.sample (Env.sample true false [])
    640 480 4 3 WindowProfiler.fresh).2 rfl rfl

/-- Counterexample to C19 as stated: when `begin()` fails, `run` still calls the
swap-interval control with 1 between `begin()` and `end()`, and returns with the
vsync flag on. -/
theorem run_begin_failure_enables_vsync :
    (Env.sample true false []).begin = false ∧
    (run MouseButtonFlag.sample KeyCodes.sample (Env.sample true false []) 640 480 4 3
        WindowProfiler.fresh).map (fun r => callNames (callsDuring WindowProfiler.fresh r.2))
      = some [Call.sysVisibleConsole, Call.activate 640 480 4 3, Call.begin,
          Call.swapInterval 1, Call.printf_vsync true, Call.profiler_init, Call.sysGetTime,
          Call.sysGetTime, Call.end_] ∧
    (run MouseButtonFlag.sample KeyCodes.sample (Env.sample true false []) 640 480 4 3
        WindowProfiler.fresh).map (fun r => r.2.m_vsync) = some true ∧
    WindowProfiler.fresh.m_vsync = false := by
  rw [run_of_begin_false _ _ _ _ _ _ _ _ rfl rfl]
  refine ⟨rfl, ?_, ?_, rfl⟩
  · simp only [Option.map_some']
    rw [run_begin_false_calls]
  · simp [setup, vsync, WindowProfiler.call]

/-- C19 (amended): when `begin()` reports failure, `run` does not enter the loop:
between `begin()` and `end()` it polls no events, calls no `think`, presents no
frame and sets no title.  It does still run the statements that precede the
loop: it calls the swap-interval control with 1 (vsync is enabled and logged),
initialises the profiler and reads the clock twice. -/
theorem run_begin_failure_between (F : MouseButtonFlag) (K : KeyCodes) (env : Env)
    (width height Major Minor : Int) (s : WindowProfiler) (ha : env.activate = true)
    (hb : env.begin = false) :
    ∃ t, run F K env width height Major Minor s = some (EXIT_FAILURE, t) ∧
      callNames (callsDuring s t)
        = [Call.sysVisibleConsole, Call.activate width height Major Minor, Call.begin] ++
          [Call.swapInterval 1, Call.printf_vsync true, Call.profiler_init, Call.sysGetTime,
            Call.sysGetTime] ++ [Call.end_] ∧
      t.m_vsync = true := by
  refine ⟨_, run_of_begin_false F K env width height Major Minor s ha hb, ?_, ?_⟩
  · rw [run_begin_false_calls]
    rfl
  · simp [setup, vsync, WindowProfiler.call]

/-- Witness for C19 (amended): `begin()` fails on a fresh object. -/
theorem run_begin_failure_between_witness :
    ∃ t, run MouseButtonFlag.sample KeyCodes.sample (Env.sample true false []) 640 480 4 3
        WindowProfiler.fresh = some (EXIT_FAILURE, t) ∧
      callNames (callsDuring WindowProfiler.fresh t)
        = [Call.sysVisibleConsole, Call.activate 640 480 4 3, Call.begin] ++
          [Call.swapInterval 1, Call.printf_vsync true, Call.profiler_init, Call.sysGetTime,
            Call.sysGetTime] ++ [Call.end_] ∧
      t.m_vsync = true :=
  run_begin_failure_between MouseButtonFlag.sample KeyCodes.sample (Env.sample true false [])
    640 480 4 3 WindowProfiler.fresh rfl rfl

/-! ## The loop body -/

theorem call_window (s : WindowProfiler) (c : Call) : (s.call c).m_window = s.m_window := rfl

theorem vsync_window (state : Bool) (s : WindowProfiler) :
    (vsync state s).m_window = s.m_window := rfl

theorem beforeFrame_window (F : MouseButtonFlag) (K : KeyCodes) (it : Iteration)
    (s : WindowProfiler) :
    (beforeFrame F K it s).m_window = (dispatched F it s).m_window := by
  unfold beforeFrame
  split
  · rfl
  · rfl

theorem frame_window (it : Iteration) (v : LoopVars) (s : WindowProfiler) :
    (frame it v s).m_window = (clearKeyToggled s).m_window := by
  unfold frame
  simp only [WindowProfiler.call, clearKeyToggled]
  split <;> split <;> rfl

theorem frame_calls (it : Iteration) (v : LoopVars) (s : WindowProfiler) :
    callsDuring s (frame it v s)
      = [⟨Call.sysGetTime, s.m_window⟩, ⟨Call.frame_begin it.timeFrame, s.m_window⟩,
          ⟨Call.section_begin, s.m_window⟩, ⟨Call.sysGetTime, s.m_window⟩,
          ⟨Call.think (doubleSub it.timeThink v.timeStart), s.m_window⟩,
          ⟨Call.section_end, s.m_window⟩] ++
        (if s.m_doSwap = true then [⟨Call.swapBuffers, (clearKeyToggled s).m_window⟩] else []) ++
        [⟨Call.frame_end, (clearKeyToggled s).m_window⟩] ++
        (if (s.m_profilerPrint && !it.statsEmpty) = true then
          [⟨Call.print_stats, (clearKeyToggled s).m_window⟩]
        else []) := by
  apply callsDuring_append
  cases hd : s.m_doSwap <;> cases hq : (s.m_profilerPrint && !it.statsEmpty) <;>
    simp [frame, WindowProfiler.call, clearKeyToggled, hd, hq]

theorem refreshTitle_window (timeCurrent : ℚ) (v : LoopVars) (s : WindowProfiler) :
    (refreshTitle timeCurrent v s).2.m_window = s.m_window := by
  by_cases h : doubleSub timeCurrent v.timeBegin > 2 ∨ v.lastVsync ≠ s.m_vsync
  · rw [refreshTitle_of_trigger _ _ _ h]; rfl
  · rw [refreshTitle_of_no_trigger _ _ _ h]; rfl

theorem refreshTitle_calls_window (timeCurrent : ℚ) (v : LoopVars) (s : WindowProfiler) :
    ∀ r ∈ callsDuring s (refreshTitle timeCurrent v s).2, r.window = s.m_window := by
  by_cases h : doubleSub timeCurrent v.timeBegin > 2 ∨ v.lastVsync ≠ s.m_vsync
  · rw [refreshTitle_of_trigger _ _ _ h, callsDuring_call_call]
    intro r hr
    simp at hr
    rcases hr with hr | hr <;> rw [hr]
  · rw [refreshTitle_of_no_trigger _ _ _ h, callsDuring_call]
    intro r hr
    simp at hr
    rw [hr]

theorem iteration_of_poll_true (F : MouseButtonFlag) (K : KeyCodes) (it : Iteration)
    (v : LoopVars) (s : WindowProfiler) (hp : it.pollResult = true) :
    iteration F K it v s
      = LoopStep.next (refreshTitle it.timeCurrent v (frame it v (beforeFrame F K it s))).1
          (refreshTitle it.timeCurrent v (frame it v (beforeFrame F K it s))).2 := by
  simp [iteration, hp, beforeFrame, dispatched]

theorem iteration_of_poll_false (F : MouseButtonFlag) (K : KeyCodes) (it : Iteration)
    (v : LoopVars) (s : WindowProfiler) (hp : it.pollResult = false) :
    iteration F K it v s
      = LoopStep.brk (dispatchAll F it.pollEvents (s.call Call.sysPollEvents)) := by
  simp [iteration, hp]

/-- C18: in every completed pass of the loop the toggle flags are cleared once,
between the return of `think` and the presentation.  (a) The call of `think`, like
every call of the frame scope up to the end of the "Frame" section, is made with
`m_window` exactly as the event dispatch of that pass left it; the swap and all
later calls of the pass are made with the cleared flags.  (b) At the end of the
pass every entry of `m_keyToggled` is false.  (c) `m_keyPressed`, the button
mask, the cursor position and the wheel are as the event dispatch left them. -/
theorem toggles_cleared_once_per_iteration (F : MouseButtonFlag) (K : KeyCodes)
    (it : Iteration) (v : LoopVars) (s : WindowProfiler) (hp : it.pollResult = true) :
    iteration F K it v s
      = LoopStep.next (refreshTitle it.timeCurrent v (frame it v (beforeFrame F K it s))).1
          (refreshTitle it.timeCurrent v (frame it v (beforeFrame F K it s))).2 ∧
    callsDuring (beforeFrame F K it s) (frame it v (beforeFrame F K it s))
      = [⟨Call.sysGetTime, (dispatched F it s).m_window⟩,
          ⟨Call.frame_begin it.timeFrame, (dispatched F it s).m_window⟩,
          ⟨Call.section_begin, (dispatched F it s).m_window⟩,
          ⟨Call.sysGetTime, (dispatched F it s).m_window⟩,
          ⟨Call.think (doubleSub it.timeThink v.timeStart), (dispatched F it s).m_window⟩,
          ⟨Call.section_end, (dispatched F it s).m_window⟩] ++
        (if (beforeFrame F K it s).m_doSwap = true then
          [⟨Call.swapBuffers, (clearKeyToggled (dispatched F it s)).m_window⟩]
        else []) ++
        [⟨Call.frame_end, (clearKeyToggled (dispatched F it s)).m_window⟩] ++
        (if ((beforeFrame F K it s).m_profilerPrint && !it.statsEmpty) = true then
          [⟨Call.print_stats, (clearKeyToggled (dispatched F it s)).m_window⟩]
        else []) ∧
    (∀ r ∈ callsDuring (frame it v (beforeFrame F K it s))
        (refreshTitle it.timeCurrent v (frame it v (beforeFrame F K it s))).2,
      r.window = (clearKeyToggled (dispatched F it s)).m_window) ∧
    (∀ k, (refreshTitle it.timeCurrent v
        (frame it v (beforeFrame F K it s))).2.m_window.m_keyToggled k = false) ∧
    (refreshTitle it.timeCurrent v (frame it v (beforeFrame F K it s))).2.m_window.m_keyPressed
      = (dispatched F it s).m_window.m_keyPressed ∧
    (refreshTitle it.timeCurrent v
        (frame it v (beforeFrame F K it s))).2.m_window.m_mouseButtonFlags
      = (dispatched F it s).m_window.m_mouseButtonFlags ∧
    (refreshTitle it.timeCurrent v (frame it v (beforeFrame F K it s))).2.m_window.m_mouseCurrent
      = (dispatched F it s).m_window.m_mouseCurrent ∧
    (refreshTitle it.timeCurrent v (frame it v (beforeFrame F K it s))).2.m_window.m_wheel
      = (dispatched F it s).m_window.m_wheel := by
  have hw : (frame it v (beforeFrame F K it s)).m_window
      = (clearKeyToggled (dispatched F it s)).m_window := by
    rw [frame_window]
    simp only [clearKeyToggled, beforeFrame_window]
  have hc : (clearKeyToggled (beforeFrame F K it s)).m_window
      = (clearKeyToggled (dispatched F it s)).m_window := by
    simp only [clearKeyToggled, beforeFrame_window]
  refine ⟨iteration_of_poll_true F K it v s hp, ?_, ?_, ?_, ?_, ?_, ?_, ?_⟩
  · rw [frame_calls, beforeFrame_window, hc]
  · intro r hr
    rw [refreshTitle_calls_window _ _ _ r hr, hw]
  · intro k
    rw [refreshTitle_window, hw]
    rfl
  · rw [refreshTitle_window, hw]; rfl
  · rw [refreshTitle_window, hw]; rfl
  · rw [refreshTitle_window, hw]; rfl
  · rw [refreshTitle_window, hw]; rfl

/-- Witness for C18: a pass that delivers a PRESS of key 86: `think` is called
with the toggle flag of key 86 set, and after the pass the flag is false while
the key is still pressed. -/
theorem toggles_cleared_once_per_iteration_witness :
    (Iteration.delivering pressV).pollResult = true ∧
    (dispatched MouseButtonFlag.sample (Iteration.delivering pressV)
      WindowProfiler.fresh).m_window.m_keyToggled 86 = true ∧
    (refreshTitle (Iteration.delivering pressV).timeCurrent ⟨0, 0, 0, true⟩
      (frame (Iteration.delivering pressV) ⟨0, 0, 0, true⟩
        (beforeFrame MouseButtonFlag.sample KeyCodes.sample (Iteration.delivering pressV)
          WindowProfiler.fresh))).2.m_window.m_keyToggled 86 = false ∧
    (refreshTitle (Iteration.delivering pressV).timeCurrent ⟨0, 0, 0, true⟩
      (frame (Iteration.delivering pressV) ⟨0, 0, 0, true⟩
        (beforeFrame MouseButtonFlag.sample KeyCodes.sample (Iteration.delivering pressV)
          WindowProfiler.fresh))).2.m_window.m_keyPressed 86 = true := by
  have h := toggles_cleared_once_per_iteration MouseButtonFlag.sample KeyCodes.sample
    (Iteration.delivering pressV) ⟨0, 0, 0, true⟩ WindowProfiler.fresh rfl
  have hd : (dispatched MouseButtonFlag.sample (Iteration.delivering pressV)
      WindowProfiler.fresh).m_window.m_keyToggled 86 = true := by
    simp [dispatched, Iteration.delivering, pressV, waitOpen, dispatchAll, dispatch, keyboard,
      Hooks.passive, WindowProfiler.fresh, newState, WindowProfiler.call,
      WindowProfiler.m_profiler_reset]
  have hk : (dispatched MouseButtonFlag.sample (Iteration.delivering pressV)
      WindowProfiler.fresh).m_window.m_keyPressed 86 = true := by
    simp [dispatched, Iteration.delivering, pressV, waitOpen, dispatchAll, dispatch, keyboard,
      Hooks.passive, WindowProfiler.fresh, newState, WindowProfiler.call,
      WindowProfiler.m_profiler_reset]
  refine ⟨rfl, hd, h.2.2.2.1 86, ?_⟩
  rw [h.2.2.2.2.1]
  exact hk

/-! ## Escape ends the loop -/

theorem dispatch_keyPressed (F : MouseButtonFlag) (key : KeyCode) (e : InputEvent)
    (s : WindowProfiler) :
    (dispatch F e s).m_window.m_keyPressed key = e.keyEffect key (s.m_window.m_keyPressed key) := by
  cases e with
  | motion app x y =>
    by_cases h0 : s.m_window.m_mouseButtonFlags = 0 <;> cases hc : app.mouse_pos x y <;>
      simp [dispatch, InputEvent.keyEffect, motion, WindowProfiler.noButtonAnd,
        WindowProfiler.call, h0, hc]
  | mouse app Button Action mods x y =>
    simp only [dispatch, InputEvent.keyEffect]
    rw [(mouse_other_fields F app Button Action mods x y s).2.2.1]
  | mousewheel app y =>
    cases hc : app.mouse_wheel y <;>
      simp [dispatch, InputEvent.keyEffect, mousewheel, WindowProfiler.call,
        WindowProfiler.m_profiler_reset, hc]
  | keyboard app k action mods x y =>
    simp only [dispatch, InputEvent.keyEffect]
    cases hc : app.key_button k action mods
    · rw [keyboard_pressed_of_unconsumed _ _ _ _ _ _ _ hc]
      by_cases hk : k = key
      · subst hk
        simp
      · have hk2 : key ≠ k := fun h => hk h.symm
        simp [hk, Function.update_noteq hk2]
    · rw [keyboard_window_of_consumed _ _ _ _ _ _ _ hc]
      simp
  | keyboardchar app k mods x y =>
    simp [dispatch, InputEvent.keyEffect, keyboardchar, WindowProfiler.call,
      WindowProfiler.m_profiler_reset]
  | reshape width height =>
    by_cases h : width = 0 ∧ height = 0 <;>
      simp [dispatch, InputEvent.keyEffect, reshape, WindowProfiler.call,
        WindowProfiler.m_profiler_reset, h]

theorem dispatchAll_keyPressed (F : MouseButtonFlag) (key : KeyCode) (evs : List InputEvent)
    (s : WindowProfiler) :
    (dispatchAll F evs s).m_window.m_keyPressed key
      = keyStateAfter key evs (s.m_window.m_keyPressed key) := by
  induction evs generalizing s with
  | nil => rfl
  | cons e evs ih =>
    have hstep : dispatchAll F (e :: evs) s = dispatchAll F evs (dispatch F e s) := rfl
    have hkey : keyStateAfter key (e :: evs) (s.m_window.m_keyPressed key)
        = keyStateAfter key evs (e.keyEffect key (s.m_window.m_keyPressed key)) := rfl
    rw [hstep, hkey, ih, dispatch_keyPressed]

theorem keyStateAfter_append (key : KeyCode) (evs more : List InputEvent) (b : Bool) :
    keyStateAfter key (evs ++ more) b = keyStateAfter key more (keyStateAfter key evs b) := by
  simp [keyStateAfter, List.foldl_append]

theorem waitOpen_keyPressed (F : MouseButtonFlag) (key : KeyCode)
    (waits : List (List InputEvent)) (s : WindowProfiler) :
    (waitOpen F waits s).m_window.m_keyPressed key
      = keyStateAfter key waits.flatten (s.m_window.m_keyPressed key) := by
  induction waits generalizing s with
  | nil => rfl
  | cons batch rest ih =>
    have hstep : waitOpen F (batch :: rest) s
        = waitOpen F rest
            (dispatchAll F batch ((s.call Call.isOpen).call Call.sysWaitEvents)) := rfl
    rw [hstep, ih, dispatchAll_keyPressed, List.flatten_cons, keyStateAfter_append]
    rfl

theorem dispatched_keyPressed (F : MouseButtonFlag) (key : KeyCode) (it : Iteration)
    (s : WindowProfiler) :
    (dispatched F it s).m_window.m_keyPressed key
      = keyStateAfter key it.events (s.m_window.m_keyPressed key) := by
  unfold dispatched Iteration.events
  rw [waitOpen_keyPressed, dispatchAll_keyPressed, keyStateAfter_append]
  rfl

theorem iteration_end_keyPressed (F : MouseButtonFlag) (K : KeyCodes) (it : Iteration)
    (v : LoopVars) (s : WindowProfiler) (key : KeyCode) :
    (refreshTitle it.timeCurrent v (frame it v (beforeFrame F K it s))).2.m_window.m_keyPressed key
      = keyStateAfter key it.events (s.m_window.m_keyPressed key) := by
  rw [refreshTitle_window, frame_window, ← dispatched_keyPressed F key it s]
  simp only [clearKeyToggled, beforeFrame_window]

theorem loop_of_escape (F : MouseButtonFlag) (K : KeyCodes) (its : List Iteration)
    (v : LoopVars) (s : WindowProfiler) (h : s.m_window.m_keyPressed K.KEY_ESCAPE = true) :
    loop F K its v s = some s := by
  cases its <;> simp [loop, h]

/-- The last unconsumed keyboard event for a key decides its pressed state,
whatever other events are delivered around it. -/
theorem keyStateAfter_of_last (key : KeyCode) (before after : List InputEvent) (app : Hooks)
    (action : ButtonAction) (mods x y : Int) (b : Bool)
    (hc : app.key_button key action mods = false)
    (hrest : ∀ e ∈ after, ∀ c, e.keyEffect key c = c) :
    keyStateAfter key (before ++ InputEvent.keyboard app key action mods x y :: after) b
      = newState action := by
  rw [keyStateAfter_append]
  have hcons : ∀ c, keyStateAfter key (InputEvent.keyboard app key action mods x y :: after) c
      = keyStateAfter key after (newState action) := by
    intro c
    simp [keyStateAfter, InputEvent.keyEffect, hc]
  rw [hcons]
  clear hcons
  induction after with
  | nil => rfl
  | cons e rest ih =>
    have hstep : keyStateAfter key (e :: rest) (newState action)
        = keyStateAfter key rest (e.keyEffect key (newState action)) := rfl
    rw [hstep, hrest e (List.mem_cons_self e rest)]
    exact ih (fun e2 h2 => hrest e2 (List.mem_cons_of_mem e h2))

/-- Counterexample to C11 as stated: one poll delivers a PRESS and then a RELEASE
of the escape key (256).  The keyboard handler records the press, but the release
dispatched with it clears `m_keyPressed[KEY_ESCAPE]` again, so the next pass of
the loop does not end the Running phase: it polls events again (the loop over
the two passes ends with the second `sysPollEvents`, which reports the close),
and with only the first pass recorded the loop is still running. -/
theorem escape_tap_does_not_end_loop :
    KeyCodes.sample.KEY_ESCAPE = 256 ∧
    (dispatch MouseButtonFlag.sample
      (InputEvent.keyboard Hooks.passive 256 ButtonAction.BUTTON_PRESS 0 0 0)
      WindowProfiler.fresh).m_window.m_keyPressed 256 = true ∧
    loop MouseButtonFlag.sample KeyCodes.sample
        [Iteration.delivering escapeTap, Iteration.closing]
        ⟨0, 0, 0, true⟩ (setup 640 480 WindowProfiler.fresh)
      = some ((refreshTitle 0 ⟨0, 0, 0, true⟩
          (frame (Iteration.delivering escapeTap) ⟨0, 0, 0, true⟩
            (beforeFrame MouseButtonFlag.sample KeyCodes.sample (Iteration.delivering escapeTap)
              (setup 640 480 WindowProfiler.fresh)))).2.call Call.sysPollEvents) ∧
    loop MouseButtonFlag.sample KeyCodes.sample [Iteration.delivering escapeTap]
        ⟨0, 0, 0, true⟩ (setup 640 480 WindowProfiler.fresh) = none := by
  have hk : (refreshTitle (Iteration.delivering escapeTap).timeCurrent ⟨0, 0, 0, true⟩
      (frame (Iteration.delivering escapeTap) ⟨0, 0, 0, true⟩
        (beforeFrame MouseButtonFlag.sample KeyCodes.sample (Iteration.delivering escapeTap)
          (setup 640 480 WindowProfiler.fresh)))).2.m_window.m_keyPressed
            KeyCodes.sample.KEY_ESCAPE = false := by
    rw [iteration_end_keyPressed]
    rfl
  refine ⟨rfl, ?_, ?_, ?_⟩
  · simp [dispatch, keyboard, Hooks.passive, newState, WindowProfiler.call,
      WindowProfiler.m_profiler_reset]
  · simp only [loop]
    rw [iteration_of_poll_true _ _ _ _ _ rfl]
    simp only [hk]
    rw [iteration_of_poll_false _ _ _ _ _ rfl]
    rfl
  · simp only [loop]
    rw [iteration_of_poll_true _ _ _ _ _ rfl]
    simp only [hk]
    rfl

/-- C11 (amended): when the escape key is pressed at the end of a pass's event
dispatch, that is, when the last unconsumed escape-key event delivered during
the pass is a press or repeat (`keyStateAfter`), the Running phase ends at the
start of the very next pass, whatever other events were dispatched with it: the
next pass calls nothing (no poll, no `think`, no swap, no title) and leaves the
state as it is, and in every execution of `run` whose loop reaches this pass the
next call of the driver is the hosted `end()`.  A press that is followed in the
same pass by an unconsumed escape release does not end the loop. -/
theorem escape_ends_loop_at_next_iteration (F : MouseButtonFlag) (K : KeyCodes)
    (it : Iteration) (rest : List Iteration) (v : LoopVars) (s : WindowProfiler)
    (hp : it.pollResult = true) (hs : s.m_window.m_keyPressed K.KEY_ESCAPE = false)
    (he : keyStateAfter K.KEY_ESCAPE it.events false = true) :
    ∃ w t, iteration F K it v s = LoopStep.next w t ∧
      t.m_window.m_keyPressed K.KEY_ESCAPE = true ∧
      loop F K rest w t = some t ∧
      loop F K (it :: rest) v s = some t ∧
      ∀ (env : Env) (width height Major Minor : Int) (s0 : WindowProfiler),
        env.activate = true → env.begin = true →
        loop F K env.iterations ⟨env.timeStart, env.timeBegin, 0, true⟩
            (setup width height
              ((s0.call Call.sysVisibleConsole).call (Call.activate width height Major Minor)))
          = loop F K (it :: rest) v s →
        run F K env width height Major Minor s0 = some (EXIT_SUCCESS, t.call Call.end_) := by
  have hk : (refreshTitle it.timeCurrent v
      (frame it v (beforeFrame F K it s))).2.m_window.m_keyPressed K.KEY_ESCAPE = true := by
    rw [iteration_end_keyPressed, hs, he]
  have hnext := loop_of_escape F K rest
    (refreshTitle it.timeCurrent v (frame it v (beforeFrame F K it s))).1
    (refreshTitle it.timeCurrent v (frame it v (beforeFrame F K it s))).2 hk
  have hloop : loop F K (it :: rest) v s
      = some (refreshTitle it.timeCurrent v (frame it v (beforeFrame F K it s))).2 := by
    simp only [loop, hs]
    rw [iteration_of_poll_true F K it v s hp]
    exact hnext
  refine ⟨_, _, iteration_of_poll_true F K it v s hp, hk, hnext, hloop, ?_⟩
  intro env width height Major Minor s0 ha hb hreach
  rw [run_of_begin_true F K env width height Major Minor s0 ha hb, hreach, hloop]
  rfl

/-- Witness for C11 (amended): a pass delivers an unconsumed PRESS of the escape
key (256) and then a motion; the loop ends before the recorded next pass. -/
theorem escape_ends_loop_at_next_iteration_witness :
    (Iteration.delivering escapePress).pollResult = true ∧
    WindowProfiler.fresh.m_window.m_keyPressed KeyCodes.sample.KEY_ESCAPE = false ∧
    keyStateAfter KeyCodes.sample.KEY_ESCAPE (Iteration.delivering escapePress).events false
      = true ∧
    ∃ w t, iteration MouseButtonFlag.sample KeyCodes.sample (Iteration.delivering escapePress)
        ⟨0, 0, 0, true⟩ WindowProfiler.fresh = LoopStep.next w t ∧
      t.m_window.m_keyPressed KeyCodes.sample.KEY_ESCAPE = true ∧
      loop MouseButtonFlag.sample KeyCodes.sample [Iteration.delivering []] w t = some t ∧
      loop MouseButtonFlag.sample KeyCodes.sample
        [Iteration.delivering escapePress, Iteration.delivering []] ⟨0, 0, 0, true⟩
        WindowProfiler.fresh = some t := by
  have he : keyStateAfter KeyCodes.sample.KEY_ESCAPE
      (Iteration.delivering escapePress).events false = true := by decide
  obtain ⟨w, t, h1, h2, h3, h4, -⟩ := escape_ends_loop_at_next_iteration
    MouseButtonFlag.sample KeyCodes.sample (Iteration.delivering escapePress)
    [Iteration.delivering []] ⟨0, 0, 0, true⟩ WindowProfiler.fresh rfl rfl he
  exact ⟨rfl, rfl, he, w, t, h1, h2, h3, h4⟩

/-! ## The vsync toggle and the title -/

theorem dispatch_vsync (F : MouseButtonFlag) (e : InputEvent) (s : WindowProfiler) :
    (dispatch F e s).m_vsync = s.m_vsync := by
  cases e with
  | motion app x y =>
    by_cases h0 : s.m_window.m_mouseButtonFlags = 0 <;> cases hc : app.mouse_pos x y <;>
      simp [dispatch, motion, WindowProfiler.noButtonAnd, WindowProfiler.call, h0, hc]
  | mouse app Button Action mods x y =>
    by_cases h0 : s.m_window.m_mouseButtonFlags = 0 <;>
      cases hc : app.mouse_button Button Action <;> cases Action <;>
      simp [dispatch, mouse, WindowProfiler.noButtonAnd, WindowProfiler.call,
        WindowProfiler.m_profiler_reset, h0, hc]
  | mousewheel app y =>
    cases hc : app.mouse_wheel y <;>
      simp [dispatch, mousewheel, WindowProfiler.call, WindowProfiler.m_profiler_reset, hc]
  | keyboard app k action mods x y =>
    cases hc : app.key_button k action mods <;>
      simp [dispatch, keyboard, WindowProfiler.call, WindowProfiler.m_profiler_reset, hc]
  | keyboardchar app k mods x y =>
    simp [dispatch, keyboardchar, WindowProfiler.call, WindowProfiler.m_profiler_reset]
  | reshape width height =>
    by_cases h : width = 0 ∧ height = 0 <;>
      simp [dispatch, reshape, WindowProfiler.call, WindowProfiler.m_profiler_reset, h]

theorem dispatchAll_vsync (F : MouseButtonFlag) (evs : List InputEvent) (s : WindowProfiler) :
    (dispatchAll F evs s).m_vsync = s.m_vsync := by
  induction evs generalizing s with
  | nil => rfl
  | cons e evs ih =>
    have hstep : dispatchAll F (e :: evs) s = dispatchAll F evs (dispatch F e s) := rfl
    rw [hstep, ih, dispatch_vsync]

theorem waitOpen_vsync (F : MouseButtonFlag) (waits : List (List InputEvent))
    (s : WindowProfiler) : (waitOpen F waits s).m_vsync = s.m_vsync := by
  induction waits generalizing s with
  | nil => rfl
  | cons batch rest ih =>
    have hstep : waitOpen F (batch :: rest) s
        = waitOpen F rest
            (dispatchAll F batch ((s.call Call.isOpen).call Call.sysWaitEvents)) := rfl
    rw [hstep, ih, dispatchAll_vsync]
    rfl

theorem dispatched_vsync (F : MouseButtonFlag) (it : Iteration) (s : WindowProfiler) :
    (dispatched F it s).m_vsync = s.m_vsync := by
  unfold dispatched
  rw [waitOpen_vsync, dispatchAll_vsync]
  rfl

theorem frame_vsync (it : Iteration) (v : LoopVars) (s : WindowProfiler) :
    (frame it v s).m_vsync = s.m_vsync := by
  unfold frame
  simp only [WindowProfiler.call, clearKeyToggled]
  split <;> split <;> rfl

/-- A fresh press of `KEY_V` flips the vsync flag before the frame, so the title
step of the same pass sees a flag that differs from the recorded one and shows
0. -/
theorem vsync_toggle_refreshes_title_in_same_pass (F : MouseButtonFlag) (K : KeyCodes)
    (it : Iteration) (v : LoopVars) (s : WindowProfiler) (hp : it.pollResult = true)
    (hv : (dispatched F it s).m_window.onPress K.KEY_V = true)
    (hl : v.lastVsync = s.m_vsync) :
    ∃ w t, iteration F K it v s = LoopStep.next w t ∧
      callNames (callsDuring (frame it v (beforeFrame F K it s)) t)
        = [Call.sysGetTime, Call.setTitle 0 (!s.m_vsync)] ∧
      t.m_vsync = (!s.m_vsync) ∧ w.frames = 0 ∧ w.timeBegin = it.timeCurrent ∧
      w.lastVsync = (!s.m_vsync) := by
  have hb : (beforeFrame F K it s).m_vsync = (!s.m_vsync) := by
    unfold beforeFrame
    rw [if_pos hv, dispatched_vsync]
    rfl
  have hf : (frame it v (beforeFrame F K it s)).m_vsync = (!s.m_vsync) := by
    rw [frame_vsync, hb]
  have hne : v.lastVsync ≠ (frame it v (beforeFrame F K it s)).m_vsync := by
    rw [hf, hl]
    cases s.m_vsync <;> simp
  refine ⟨_, _, iteration_of_poll_true F K it v s hp, ?_, ?_, ?_, ?_, ?_⟩
  · rw [refreshTitle_of_trigger _ _ _ (Or.inr hne), callsDuring_call_call, if_pos hne, hf,
      doubleDiv_doubleMul_zero]
    rfl
  · rw [refreshTitle_of_trigger _ _ _ (Or.inr hne)]
    exact hf
  · rw [refreshTitle_of_trigger _ _ _ (Or.inr hne)]
  · rw [refreshTitle_of_trigger _ _ _ (Or.inr hne)]
  · rw [refreshTitle_of_trigger _ _ _ (Or.inr hne)]
    exact hf

end nv_helpers_gl
